import Mathlib

/-!
The class `nuts_args` of rstan: resolution of sampler arguments

A shallow embedding of `rstan/inst/include/rstan/nuts_args.hpp`: the helper
`find_index`, the class `nuts_args` with its constructor from an `Rcpp::List`,
and its accessors.

Conventions of the embedding.

* `unsigned int` values are natural numbers below `2 ^ 32`; the one unsigned
  subtraction of the constructor is reduced modulo `2 ^ 32` explicitly.
* `int` values are integers; a conversion to `int` is written `to_int`.
* `double` values are only stored and handed back by this class, no arithmetic
  is done on them; a double is represented by the rational number it denotes.
* The `Rcpp` library (coercions `Rcpp::as<T>`, the null object) is not part of
  the class: it is a parameter of the constructor, and so is the reading of
  the clock `std::time(0)`.
* The member `test_grad` is declared and never assigned: what its storage
  holds before the construction is a parameter of the constructor.
* An `Rcpp::List` with names is a list of (name, value) entries.
-/

namespace rstan

/-- The C++ type `double`: stored and returned, never computed with. -/
abbrev double := ℚ

/-- The part of the Rcpp library used by the constructor: the coercions
`Rcpp::as<T>` from a dynamically typed value, each of which may throw, the
null object `R_NilValue`, and the exception thrown by an out-of-range index.
The result of `Rcpp::as<unsigned int>` is an `unsigned int`. -/
structure Rcpp (SEXP E : Type) where
  as_string : SEXP → Except E String
  as_unsigned_int : SEXP → Except E Nat
  as_int : SEXP → Except E Int
  as_double : SEXP → Except E double
  as_bool : SEXP → Except E Bool
  as_size_t : SEXP → Except E Nat
  R_NilValue : SEXP
  index_out_of_bounds : E
  unsigned_int_range : ∀ x n, as_unsigned_int x = Except.ok n → n < 2 ^ 32

/-- Find the index of an element in a vector: the distance from the beginning
to the first position holding `e`, the size of the vector when there is none
(`std::distance(v.begin(), std::find(v.begin(), v.end(), e))`). -/
def find_index {T : Type} [DecidableEq T] : List T → T → Nat
  | [], _ => 0
  | x :: v, e => if x = e then 0 else find_index v e + 1

/-- Conversion of an integer value to the 32-bit type `int`. -/
def to_int (z : Int) : Int := (z + 2 ^ 31) % 2 ^ 32 - 2 ^ 31

/-- Subtraction of two `unsigned int` values. -/
def unsigned_sub (a b : Nat) : Nat := (((a : Int) - (b : Int)) % 2 ^ 32).toNat

/-- The element access `in[idx]` of an `Rcpp::List`. -/
def index {SEXP E : Type} (R : Rcpp SEXP E) (in_ : List (String × SEXP)) (idx : Nat) :
    Except E SEXP :=
  match in_[idx]? with
  | some entry => Except.ok entry.2
  | none => Except.error R.index_out_of_bounds

/-- The data members of class `nuts_args`. -/
structure nuts_args (SEXP : Type) where
  sample_file : String
  iter : Nat
  warmup : Nat
  thin : Nat
  refresh : Nat
  leapfrog_steps : Int
  epsilon : double
  max_treedepth : Int
  epsilon_pm : double
  epsilon_adapt : Bool
  delta : double
  gamma : double
  random_seed : Int
  random_seed_src : String
  chain_id : Nat
  chain_id_src : String
  append_samples : Bool
  test_grad : Bool
  init : String
  init_list : SEXP
  num_chains : Nat
  deriving DecidableEq

/-- The constructor `nuts_args::nuts_args(const Rcpp::List& in)`; `time0` is the value
returned by `std::time(0)`. The constructor never assigns the member
`test_grad`: it keeps `test_grad0`, the content of its storage before the
construction. -/
def nuts_args.ctor {SEXP E : Type} (R : Rcpp SEXP E) (time0 : Int) (test_grad0 : Bool)
    (in_ : List (String × SEXP)) : Except E (nuts_args SEXP) := do
  let args_names := in_.map Prod.fst
  let idx := find_index args_names "sample_file"
  let sample_file ←
    (if idx = args_names.length then pure "samples.csv"
     else index R in_ idx >>= R.as_string)
  let idx := find_index args_names "iter"
  let iter ←
    (if idx = args_names.length then pure 2000
     else index R in_ idx >>= R.as_unsigned_int)
  let idx := find_index args_names "warmup"
  let warmup ←
    (if idx = args_names.length then pure (iter / 2)
     else index R in_ idx >>= R.as_unsigned_int)
  let idx := find_index args_names "thin"
  let calculated_thin := unsigned_sub iter warmup / 1000
  let thin ←
    (if idx = args_names.length then pure (if calculated_thin > 1 then calculated_thin else 1)
     else index R in_ idx >>= R.as_unsigned_int)
  let idx := find_index args_names "leapfrog_steps"
  let leapfrog_steps ←
    (if idx = args_names.length then pure (-1)
     else index R in_ idx >>= R.as_int)
  let idx := find_index args_names "epsilon"
  let epsilon ←
    (if idx = args_names.length then pure (-1.0)
     else index R in_ idx >>= R.as_double)
  let idx := find_index args_names "epsilon_pm"
  let epsilon_pm ←
    (if idx = args_names.length then pure 0.0
     else index R in_ idx >>= R.as_double)
  let idx := find_index args_names "max_treedepth"
  let max_treedepth ←
    (if idx = args_names.length then pure 10
     else index R in_ idx >>= R.as_int)
  let idx := find_index args_names "epsilon_adapt"
  let epsilon_adapt ←
    (if idx = args_names.length then pure true
     else index R in_ idx >>= R.as_bool)
  let idx := find_index args_names "delta"
  let delta ←
    (if idx = args_names.length then pure 0.5
     else index R in_ idx >>= R.as_double)
  let idx := find_index args_names "gamma"
  let gamma ←
    (if idx = args_names.length then pure 0.05
     else index R in_ idx >>= R.as_double)
  let idx := find_index args_names "refresh"
  let refresh ←
    (if idx = args_names.length then pure 1
     else index R in_ idx >>= R.as_unsigned_int)
  let idx := find_index args_names "seed"
  let seed ←
    (if idx = args_names.length then pure (to_int time0, "random")
     else index R in_ idx >>= R.as_unsigned_int >>= fun n => pure (to_int n, "user"))
  let idx := find_index args_names "chain_id"
  let chain ←
    (if idx = args_names.length then pure (1, "default")
     else index R in_ idx >>= R.as_unsigned_int >>= fun n => pure (n, "user"))
  let idx := find_index args_names "init"
  let init ←
    (if idx = args_names.length then pure "random"
     else index R in_ idx >>= R.as_string)
  let idx := find_index args_names "init_list"
  let init_list ←
    (if idx = args_names.length then pure R.R_NilValue
     else index R in_ idx)
  let idx := find_index args_names "append_samples"
  let append_samples ←
    (if idx = args_names.length then pure false
     else index R in_ idx >>= R.as_bool)
  let idx := find_index args_names "num_chains"
  let num_chains ←
    (if idx = args_names.length then pure 1
     else index R in_ idx >>= R.as_size_t)
  pure
    { sample_file := sample_file, iter := iter, warmup := warmup, thin := thin,
      refresh := refresh, leapfrog_steps := leapfrog_steps, epsilon := epsilon,
      max_treedepth := max_treedepth, epsilon_pm := epsilon_pm,
      epsilon_adapt := epsilon_adapt, delta := delta, gamma := gamma,
      random_seed := seed.1, random_seed_src := seed.2,
      chain_id := chain.1, chain_id_src := chain.2,
      append_samples := append_samples, test_grad := test_grad0,
      init := init, init_list := init_list, num_chains := num_chains }

/-- A small type of dynamically typed values on which the constructor can be
run: the null object, logical, numeric and character scalars. -/
inductive RObject where
  | null
  | logical (b : Bool)
  | numeric (x : Int)
  | character (s : String)
  deriving DecidableEq

/-- Coercions on `RObject`: a numeric scalar coerces to `unsigned int` and
`size_t` when it is in range, a value of another type is not compatible. -/
def RObject.rcpp : Rcpp RObject String where
  as_string x := match x with
    | RObject.character s => Except.ok s
    | _ => Except.error "not compatible with requested type"
  as_unsigned_int x := match x with
    | RObject.numeric i =>
      if 0 ≤ i ∧ i < 2 ^ 32 then Except.ok i.toNat
      else Except.error "not compatible with requested type"
    | _ => Except.error "not compatible with requested type"
  as_int x := match x with
    | RObject.numeric i => Except.ok (to_int i)
    | _ => Except.error "not compatible with requested type"
  as_double x := match x with
    | RObject.numeric i => Except.ok (i : ℚ)
    | _ => Except.error "not compatible with requested type"
  as_bool x := match x with
    | RObject.logical b => Except.ok b
    | _ => Except.error "not compatible with requested type"
  as_size_t x := match x with
    | RObject.numeric i =>
      if 0 ≤ i ∧ i < 2 ^ 64 then Except.ok i.toNat
      else Except.error "not compatible with requested type"
    | _ => Except.error "not compatible with requested type"
  R_NilValue := RObject.null
  index_out_of_bounds := "index out of bounds"
  unsigned_int_range := by
    intro x n h
    cases x <;> simp only [reduceCtorEq] at h
    split at h
    · injection h with h
      omega
    · simp only [reduceCtorEq] at h

/-- The accessor `size_t get_num_chains() const`. -/
def nuts_args.get_num_chains {SEXP : Type} (r : nuts_args SEXP) : Nat := r.num_chains

/-- The accessor `const std::string& get_random_seed_src() const`. -/
def nuts_args.get_random_seed_src {SEXP : Type} (r : nuts_args SEXP) : String :=
  r.random_seed_src

/-- The accessor `const std::string& get_chain_id_src() const`. -/
def nuts_args.get_chain_id_src {SEXP : Type} (r : nuts_args SEXP) : String := r.chain_id_src

/-- The accessor `SEXP get_init_list() const`. -/
def nuts_args.get_init_list {SEXP : Type} (r : nuts_args SEXP) : SEXP := r.init_list

/-- The accessor `int get_iter() const`: the `unsigned int` member is converted
to the return type `int`. -/
def nuts_args.get_iter {SEXP : Type} (r : nuts_args SEXP) : Int := to_int (r.iter : Int)

/-- The accessor `const std::string& get_sample_file() const`. -/
def nuts_args.get_sample_file {SEXP : Type} (r : nuts_args SEXP) : String := r.sample_file

/-- The accessor `unsigned int get_warmup() const`. -/
def nuts_args.get_warmup {SEXP : Type} (r : nuts_args SEXP) : Nat := r.warmup

/-- The accessor `unsigned int get_refresh() const`. -/
def nuts_args.get_refresh {SEXP : Type} (r : nuts_args SEXP) : Nat := r.refresh

/-- The accessor `unsigned int get_thin() const`. -/
def nuts_args.get_thin {SEXP : Type} (r : nuts_args SEXP) : Nat := r.thin

/-- The accessor `int get_leapfrog_steps() const`. -/
def nuts_args.get_leapfrog_steps {SEXP : Type} (r : nuts_args SEXP) : Int := r.leapfrog_steps

/-- The accessor `double get_epsilon() const`. -/
def nuts_args.get_epsilon {SEXP : Type} (r : nuts_args SEXP) : double := r.epsilon

/-- The accessor `int get_max_treedepth() const`. -/
def nuts_args.get_max_treedepth {SEXP : Type} (r : nuts_args SEXP) : Int := r.max_treedepth

/-- The accessor `double get_epsilon_pm() const`, whose body is `return epsilon;`. -/
def nuts_args.get_epsilon_pm {SEXP : Type} (r : nuts_args SEXP) : double := r.epsilon

/-- The accessor `bool get_epsilon_adapt() const`. -/
def nuts_args.get_epsilon_adapt {SEXP : Type} (r : nuts_args SEXP) : Bool := r.epsilon_adapt

/-- The accessor `double get_delta() const`. -/
def nuts_args.get_delta {SEXP : Type} (r : nuts_args SEXP) : double := r.delta

/-- The accessor `double get_gamma() const`. -/
def nuts_args.get_gamma {SEXP : Type} (r : nuts_args SEXP) : double := r.gamma

/-- The accessor `bool get_append_samples() const`. -/
def nuts_args.get_append_samples {SEXP : Type} (r : nuts_args SEXP) : Bool := r.append_samples

/-- The accessor `bool get_test_grad() const`. -/
def nuts_args.get_test_grad {SEXP : Type} (r : nuts_args SEXP) : Bool := r.test_grad

/-- The accessor `int get_random_seed() const`. -/
def nuts_args.get_random_seed {SEXP : Type} (r : nuts_args SEXP) : Int := r.random_seed

/-- The accessor `const std::string& get_init() const`. -/
def nuts_args.get_init {SEXP : Type} (r : nuts_args SEXP) : String := r.init

/-- The accessor `unsigned int get_chain_id() const`. -/
def nuts_args.get_chain_id {SEXP : Type} (r : nuts_args SEXP) : Nat := r.chain_id

/-- The names searched by the constructor, in the order of the searches. -/
def key_names : List String :=
  ["sample_file", "iter", "warmup", "thin", "leapfrog_steps", "epsilon", "epsilon_pm",
   "max_treedepth", "epsilon_adapt", "delta", "gamma", "refresh", "seed", "chain_id",
   "init", "init_list", "append_samples", "num_chains"]

/-- The record built from the empty list at clock reading `time0`, for the
values of type `RObject`, when the storage of `test_grad` held `false`. -/
def RObject.defaults (time0 : Int) : nuts_args RObject :=
  { sample_file := "samples.csv", iter := 2000, warmup := 1000, thin := 1, refresh := 1,
    leapfrog_steps := -1, epsilon := -1.0, max_treedepth := 10, epsilon_pm := 0.0,
    epsilon_adapt := true, delta := 0.5, gamma := 0.05,
    random_seed := to_int time0, random_seed_src := "random",
    chain_id := 1, chain_id_src := "default", append_samples := false, test_grad := false,
    init := "random", init_list := RObject.null, num_chains := 1 }

/-- The record built from the list holding `iter = 5000` alone. -/
def RObject.iter_5000 : nuts_args RObject :=
  { RObject.defaults 0 with iter := 5000, warmup := 2500, thin := 2 }

/-- The record built from the list holding `iter = 1000` and `warmup = 900`. -/
def RObject.iter_1000_warmup_900 : nuts_args RObject :=
  { RObject.defaults 0 with iter := 1000, warmup := 900, thin := 1 }

/-- The record built from the list holding `iter = 1000` and `warmup = 2000`. -/
def RObject.iter_1000_warmup_2000 : nuts_args RObject :=
  { RObject.defaults 0 with iter := 1000, warmup := 2000, thin := 4294966 }

/-- The record built from the list holding `thin = 0` alone. -/
def RObject.thin_0 : nuts_args RObject :=
  { RObject.defaults 0 with thin := 0 }

/-- The record built from the list holding `iter = 2000` and `thin = 7`. -/
def RObject.iter_2000_thin_7 : nuts_args RObject :=
  { RObject.defaults 0 with thin := 7 }

/-- The record built from the list holding `seed = 42` alone. -/
def RObject.seed_42 : nuts_args RObject :=
  { RObject.defaults 0 with random_seed := 42, random_seed_src := "user" }

/-- The record built from the list holding `seed = 3000000000` alone. -/
def RObject.seed_3000000000 : nuts_args RObject :=
  { RObject.defaults 0 with random_seed := -1294967296, random_seed_src := "user" }

/-- The record built from the list holding `chain_id = 3` alone. -/
def RObject.chain_id_3 : nuts_args RObject :=
  { RObject.defaults 0 with chain_id := 3, chain_id_src := "user" }

/-- The record built from the list holding `epsilon_pm = 2` alone. -/
def RObject.epsilon_pm_2 : nuts_args RObject :=
  { RObject.defaults 0 with epsilon_pm := 2 }

/-- The record built from the list holding `iter = 3000000000` alone. -/
def RObject.iter_3000000000 : nuts_args RObject :=
  { RObject.defaults 0 with iter := 3000000000, warmup := 1500000000, thin := 1500000 }

/-- The target types of the coercions `Rcpp::as<T>` of the constructor; `sexp`
stands for a value stored as it is, without coercion. -/
inductive field_type where
  | string
  | unsigned_int
  | int
  | double
  | bool
  | size_t
  | sexp
  deriving DecidableEq

/-- The names searched by the constructor, each with the target type of the
coercion applied to its value in the stanza of that name. -/
def key_types : List (String × field_type) :=
  [("sample_file", field_type.string), ("iter", field_type.unsigned_int),
   ("warmup", field_type.unsigned_int), ("thin", field_type.unsigned_int),
   ("leapfrog_steps", field_type.int), ("epsilon", field_type.double),
   ("epsilon_pm", field_type.double), ("max_treedepth", field_type.int),
   ("epsilon_adapt", field_type.bool), ("delta", field_type.double),
   ("gamma", field_type.double), ("refresh", field_type.unsigned_int),
   ("seed", field_type.unsigned_int), ("chain_id", field_type.unsigned_int),
   ("init", field_type.string), ("init_list", field_type.sexp),
   ("append_samples", field_type.bool), ("num_chains", field_type.size_t)]

/-- Whether the coercion of a value to a target type returns a result. -/
def coercible {SEXP E : Type} (R : Rcpp SEXP E) : field_type → SEXP → Bool
  | field_type.string, x => (R.as_string x).toBool
  | field_type.unsigned_int, x => (R.as_unsigned_int x).toBool
  | field_type.int, x => (R.as_int x).toBool
  | field_type.double, x => (R.as_double x).toBool
  | field_type.bool, x => (R.as_bool x).toBool
  | field_type.size_t, x => (R.as_size_t x).toBool
  | field_type.sexp, _ => true

/-- The exception raised by a computation, if it raises one. -/
def raised {E α : Type} : Except E α → Option E
  | Except.error e => some e
  | Except.ok _ => none

/-- The exception raised by the coercion of a value to a target type, if it
raises one. -/
def coercion_failure {SEXP E : Type} (R : Rcpp SEXP E) : field_type → SEXP → Option E
  | field_type.string, x => raised (R.as_string x)
  | field_type.unsigned_int, x => raised (R.as_unsigned_int x)
  | field_type.int, x => raised (R.as_int x)
  | field_type.double, x => raised (R.as_double x)
  | field_type.bool, x => raised (R.as_bool x)
  | field_type.size_t, x => raised (R.as_size_t x)
  | field_type.sexp, _ => none

/-- The record built from the list holding `refresh = 5` followed by
`refresh = 9`. -/
def RObject.refresh_5 : nuts_args RObject :=
  { RObject.defaults 0 with refresh := 5 }

/-! ## Lemmas on the name search -/

section lemmas

variable {SEXP E : Type}

theorem find_index_le {T : Type} [DecidableEq T] (v : List T) (e : T) :
    find_index v e ≤ v.length := by
  induction v with
  | nil => simp [find_index]
  | cons x v ih =>
    simp only [find_index, List.length_cons]
    split <;> omega

theorem find_index_eq_length_iff {T : Type} [DecidableEq T] (v : List T) (e : T) :
    find_index v e = v.length ↔ e ∉ v := by
  induction v with
  | nil => simp [find_index]
  | cons x v ih =>
    simp only [find_index, List.length_cons, List.mem_cons, not_or]
    by_cases hx : x = e
    · simp [hx]
    · have hne : ¬ e = x := fun h => hx h.symm
      simp [hx, hne, ih]

/-- The name search of the constructor finds no entry exactly when the
association-list lookup finds none. -/
theorem find_index_names_eq_length_iff (in_ : List (String × SEXP)) (key : String) :
    find_index (in_.map Prod.fst) key = (in_.map Prod.fst).length ↔ in_.lookup key = none := by
  induction in_ with
  | nil => simp [find_index]
  | cons p l ih =>
    obtain ⟨k, x⟩ := p
    by_cases hk : k = key
    · subst hk
      simp [find_index, List.lookup]
    · have hb : (key == k) = false := by
        simp only [beq_eq_false_iff_ne, ne_eq]
        exact fun h => hk h.symm
      simp only [List.map_cons, find_index, hk, if_false, List.length_cons, List.lookup, hb]
      simpa using ih

/-- When the lookup finds a value, the name search followed by the element
access yields that value. -/
theorem index_find_index (R : Rcpp SEXP E) (in_ : List (String × SEXP)) (key : String)
    (x : SEXP) (h : in_.lookup key = some x) :
    index R in_ (find_index (in_.map Prod.fst) key) = Except.ok x := by
  induction in_ with
  | nil => simp at h
  | cons p l ih =>
    obtain ⟨k, y⟩ := p
    by_cases hk : k = key
    · subst hk
      simp only [List.lookup, beq_self_eq_true, Option.some.injEq] at h
      simp [find_index, index, h]
    · have hb : (key == k) = false := by
        simp only [beq_eq_false_iff_ne, ne_eq]
        exact fun h => hk h.symm
      simp only [List.lookup, hb] at h
      have := ih h
      simp only [index] at this ⊢
      simpa [find_index, hk] using this

/-- One stanza of the constructor, in terms of the lookup of its key. -/
theorem stanza_eq {T : Type} (R : Rcpp SEXP E) (in_ : List (String × SEXP)) (key : String)
    (d : Except E T) (f : SEXP → Except E T) :
    (if find_index (in_.map Prod.fst) key = (in_.map Prod.fst).length then d
      else index R in_ (find_index (in_.map Prod.fst) key) >>= f)
      = (in_.lookup key).elim d f := by
  cases h : in_.lookup key with
  | none => simp [(find_index_names_eq_length_iff in_ key).2 h]
  | some x =>
    have hne : ¬ find_index (in_.map Prod.fst) key = (in_.map Prod.fst).length := by
      rw [find_index_names_eq_length_iff, h]; simp
    rw [if_neg hne, index_find_index R in_ key x h]
    rfl

/-- The stanza of `init_list`, whose value is stored without coercion. -/
theorem stanza_init_list_eq (R : Rcpp SEXP E) (in_ : List (String × SEXP)) (key : String) :
    (if find_index (in_.map Prod.fst) key = (in_.map Prod.fst).length
      then (pure R.R_NilValue : Except E SEXP)
      else index R in_ (find_index (in_.map Prod.fst) key))
      = Except.ok ((in_.lookup key).getD R.R_NilValue) := by
  have h := stanza_eq R in_ key (Except.ok R.R_NilValue) Except.ok
  have hb : ∀ y : Except E SEXP, (y >>= Except.ok) = y := by
    intro y; cases y <;> rfl
  rw [hb] at h
  rw [show (pure R.R_NilValue : Except E SEXP) = Except.ok R.R_NilValue from rfl, h]
  cases in_.lookup key <;> rfl

end lemmas


/-! ## The constructor, stanza by stanza -/

section inversion

variable {SEXP E : Type}

theorem bind_eq_ok_iff {α β : Type} (x : Except E α) (f : α → Except E β) (b : β) :
    (x >>= f) = Except.ok b ↔ ∃ a, x = Except.ok a ∧ f a = Except.ok b := by
  cases x with
  | error e => simp [bind, Except.bind]
  | ok a => simp [bind, Except.bind]

theorem pure_eq_ok_iff {α : Type} (a b : α) :
    (pure a : Except E α) = Except.ok b ↔ a = b := by
  simp [pure, Except.pure]

/-- The constructor succeeds with record `r` exactly when every stanza, read
as a lookup of its key, yields the corresponding member of `r`. -/
theorem nuts_args_eq_ok_iff (R : Rcpp SEXP E) (time0 : Int) (test_grad0 : Bool) (in_ : List (String × SEXP))
    (r : nuts_args SEXP) :
    nuts_args.ctor R time0 test_grad0 in_ = Except.ok r ↔
      (in_.lookup "sample_file").elim (Except.ok "samples.csv") R.as_string
        = Except.ok r.sample_file ∧
      (in_.lookup "iter").elim (Except.ok 2000) R.as_unsigned_int = Except.ok r.iter ∧
      (in_.lookup "warmup").elim (Except.ok (r.iter / 2)) R.as_unsigned_int
        = Except.ok r.warmup ∧
      (in_.lookup "thin").elim
          (Except.ok (if unsigned_sub r.iter r.warmup / 1000 > 1
            then unsigned_sub r.iter r.warmup / 1000 else 1))
          R.as_unsigned_int = Except.ok r.thin ∧
      (in_.lookup "leapfrog_steps").elim (Except.ok (-1)) R.as_int
        = Except.ok r.leapfrog_steps ∧
      (in_.lookup "epsilon").elim (Except.ok (-1.0)) R.as_double = Except.ok r.epsilon ∧
      (in_.lookup "epsilon_pm").elim (Except.ok 0.0) R.as_double = Except.ok r.epsilon_pm ∧
      (in_.lookup "max_treedepth").elim (Except.ok 10) R.as_int
        = Except.ok r.max_treedepth ∧
      (in_.lookup "epsilon_adapt").elim (Except.ok true) R.as_bool
        = Except.ok r.epsilon_adapt ∧
      (in_.lookup "delta").elim (Except.ok 0.5) R.as_double = Except.ok r.delta ∧
      (in_.lookup "gamma").elim (Except.ok 0.05) R.as_double = Except.ok r.gamma ∧
      (in_.lookup "refresh").elim (Except.ok 1) R.as_unsigned_int = Except.ok r.refresh ∧
      (in_.lookup "seed").elim (Except.ok (to_int time0, "random"))
          (fun x => R.as_unsigned_int x >>= fun n => Except.ok (to_int (n : Int), "user"))
        = Except.ok (r.random_seed, r.random_seed_src) ∧
      (in_.lookup "chain_id").elim (Except.ok (1, "default"))
          (fun x => R.as_unsigned_int x >>= fun n => Except.ok (n, "user"))
        = Except.ok (r.chain_id, r.chain_id_src) ∧
      (in_.lookup "init").elim (Except.ok "random") R.as_string = Except.ok r.init ∧
      (in_.lookup "init_list").getD R.R_NilValue = r.init_list ∧
      (in_.lookup "append_samples").elim (Except.ok false) R.as_bool
        = Except.ok r.append_samples ∧
      (in_.lookup "num_chains").elim (Except.ok 1) R.as_size_t = Except.ok r.num_chains ∧
      r.test_grad = test_grad0 := by
  unfold nuts_args.ctor
  simp only [stanza_init_list_eq, stanza_eq, bind_assoc]
  constructor
  · intro h
    obtain ⟨a1, h1, h⟩ := (bind_eq_ok_iff _ _ _).1 h
    obtain ⟨a2, h2, h⟩ := (bind_eq_ok_iff _ _ _).1 h
    obtain ⟨a3, h3, h⟩ := (bind_eq_ok_iff _ _ _).1 h
    obtain ⟨a4, h4, h⟩ := (bind_eq_ok_iff _ _ _).1 h
    obtain ⟨a5, h5, h⟩ := (bind_eq_ok_iff _ _ _).1 h
    obtain ⟨a6, h6, h⟩ := (bind_eq_ok_iff _ _ _).1 h
    obtain ⟨a7, h7, h⟩ := (bind_eq_ok_iff _ _ _).1 h
    obtain ⟨a8, h8, h⟩ := (bind_eq_ok_iff _ _ _).1 h
    obtain ⟨a9, h9, h⟩ := (bind_eq_ok_iff _ _ _).1 h
    obtain ⟨a10, h10, h⟩ := (bind_eq_ok_iff _ _ _).1 h
    obtain ⟨a11, h11, h⟩ := (bind_eq_ok_iff _ _ _).1 h
    obtain ⟨a12, h12, h⟩ := (bind_eq_ok_iff _ _ _).1 h
    obtain ⟨a13, h13, h⟩ := (bind_eq_ok_iff _ _ _).1 h
    obtain ⟨a14, h14, h⟩ := (bind_eq_ok_iff _ _ _).1 h
    obtain ⟨a15, h15, h⟩ := (bind_eq_ok_iff _ _ _).1 h
    obtain ⟨a16, h16, h⟩ := (bind_eq_ok_iff _ _ _).1 h
    obtain ⟨a17, h17, h⟩ := (bind_eq_ok_iff _ _ _).1 h
    obtain ⟨a18, h18, h⟩ := (bind_eq_ok_iff _ _ _).1 h
    have hr := (pure_eq_ok_iff _ _).1 h
    subst hr
    have h16b := Except.ok.inj h16
    exact ⟨h1, h2, h3, h4, h5, h6, h7, h8, h9, h10, h11, h12, h13, h14, h15, h16b, h17, h18, rfl⟩
  · rintro ⟨h1, h2, h3, h4, h5, h6, h7, h8, h9, h10, h11, h12, h13, h14, h15, h16, h17, h18, h19⟩
    obtain ⟨sample_file, iter, warmup, thin, refresh, leapfrog_steps, epsilon, max_treedepth,
      epsilon_pm, epsilon_adapt, delta, gamma, random_seed, random_seed_src, chain_id,
      chain_id_src, append_samples, test_grad, init, init_list, num_chains⟩ := r
    simp only at h1 h2 h3 h4 h5 h6 h7 h8 h9 h10 h11 h12 h13 h14 h15 h16 h17 h18 h19
    subst h19
    have hp : ∀ {α : Type} (a : α), (pure a : Except E α) = Except.ok a := fun _ => rfl
    have hb : ∀ {α β : Type} (a : α) (f : α → Except E β), (Except.ok a >>= f) = f a :=
      fun _ _ => rfl
    simp only [hp, hb, h1, h2, h3, h4, h5, h6, h7, h8, h9, h10, h11, h12, h13, h14, h15, h16,
      h17, h18]

end inversion



/-! ## The claims -/

section claims

variable {SEXP E : Type}

theorem lookup_eq_none_of_not_mem (in_ : List (String × SEXP)) (key : String)
    (h : key ∉ in_.map Prod.fst) : in_.lookup key = none :=
  (find_index_names_eq_length_iff in_ key).1 ((find_index_eq_length_iff _ key).2 h)

/-- The members `iter` and `warmup` of a constructed record are `unsigned int`
values. -/
theorem iter_warmup_range (R : Rcpp SEXP E) (time0 : Int) (test_grad0 : Bool) (in_ : List (String × SEXP))
    (r : nuts_args SEXP) (h : nuts_args.ctor R time0 test_grad0 in_ = Except.ok r) :
    r.iter < 2 ^ 32 ∧ r.warmup < 2 ^ 32 := by
  obtain ⟨-, h2, h3, -⟩ := (nuts_args_eq_ok_iff R time0 test_grad0 in_ r).1 h
  have hi : r.iter < 2 ^ 32 := by
    cases hl : in_.lookup "iter" with
    | none =>
      rw [hl] at h2
      have := Except.ok.inj h2
      simp only [Option.elim] at this
      omega
    | some x =>
      rw [hl] at h2
      exact R.unsigned_int_range x r.iter h2
  refine ⟨hi, ?_⟩
  cases hl : in_.lookup "warmup" with
  | none =>
    rw [hl] at h3
    have := Except.ok.inj h3
    omega
  | some x =>
    rw [hl] at h3
    exact R.unsigned_int_range x r.warmup h3

theorem unsigned_sub_of_le (a b : Nat) (ha : a < 2 ^ 32) (hb : b ≤ a) :
    ((unsigned_sub a b : Nat) : Int) = (a : Int) - (b : Int) := by
  unfold unsigned_sub
  omega

/-- C1 (amended): when key "thin" is absent and the resolved warmup does not
exceed the resolved iter, the resolved thin equals max((iter - warmup) / 1000, 1),
with integer subtraction and floor division. -/
theorem thin_absent_eq_max (R : Rcpp SEXP E) (time0 : Int) (test_grad0 : Bool) (in_ : List (String × SEXP))
    (r : nuts_args SEXP) (h : nuts_args.ctor R time0 test_grad0 in_ = Except.ok r)
    (habsent : "thin" ∉ in_.map Prod.fst) (hle : r.warmup ≤ r.iter) :
    (r.thin : Int) = max (((r.iter : Int) - (r.warmup : Int)) / 1000) 1 := by
  obtain ⟨hi, -⟩ := iter_warmup_range R time0 test_grad0 in_ r h
  obtain ⟨-, -, -, h4, -⟩ := (nuts_args_eq_ok_iff R time0 test_grad0 in_ r).1 h
  rw [lookup_eq_none_of_not_mem in_ "thin" habsent] at h4
  have h4 := Except.ok.inj h4
  have hs := unsigned_sub_of_le r.iter r.warmup hi hle
  rw [← h4, ← hs]
  split <;> omega

/-- Instances of `thin_absent_eq_max`: `iter = 5000` with warmup absent gives
warmup 2500 and thin 2; `iter = 1000` with `warmup = 900` gives thin 1. -/
theorem thin_absent_eq_max_witness :
    (nuts_args.ctor RObject.rcpp 0 false [("iter", RObject.numeric 5000)]
        = Except.ok RObject.iter_5000 ∧
      "thin" ∉ [("iter", RObject.numeric 5000)].map Prod.fst ∧
      RObject.iter_5000.warmup ≤ RObject.iter_5000.iter ∧
      RObject.iter_5000.thin = 2 ∧
      (RObject.iter_5000.thin : Int)
        = max (((RObject.iter_5000.iter : Int) - (RObject.iter_5000.warmup : Int)) / 1000) 1) ∧
    (nuts_args.ctor RObject.rcpp 0 false
          [("iter", RObject.numeric 1000), ("warmup", RObject.numeric 900)]
        = Except.ok RObject.iter_1000_warmup_900 ∧
      RObject.iter_1000_warmup_900.thin = 1 ∧
      (RObject.iter_1000_warmup_900.thin : Int)
        = max (((RObject.iter_1000_warmup_900.iter : Int)
            - (RObject.iter_1000_warmup_900.warmup : Int)) / 1000) 1) :=
  ⟨⟨rfl, by decide, by decide, rfl,
      thin_absent_eq_max RObject.rcpp 0 false [("iter", RObject.numeric 5000)] RObject.iter_5000 rfl
        (by decide) (by decide)⟩,
    rfl, rfl,
      thin_absent_eq_max RObject.rcpp 0 false
        [("iter", RObject.numeric 1000), ("warmup", RObject.numeric 900)]
        RObject.iter_1000_warmup_900 rfl (by decide) (by decide)⟩

/-- C1 fails as stated: with `iter = 1000`, `warmup = 2000` and "thin" absent
the resolved thin is 4294966, while max((1000 - 2000) / 1000, 1) is 1. -/
theorem thin_absent_ne_max_counterexample :
    nuts_args.ctor RObject.rcpp 0 false
        [("iter", RObject.numeric 1000), ("warmup", RObject.numeric 2000)]
      = Except.ok RObject.iter_1000_warmup_2000 ∧
    "thin" ∉ [("iter", RObject.numeric 1000), ("warmup", RObject.numeric 2000)].map Prod.fst ∧
    RObject.iter_1000_warmup_2000.thin = 4294966 ∧
    (RObject.iter_1000_warmup_2000.thin : Int)
      ≠ max (((RObject.iter_1000_warmup_2000.iter : Int)
          - (RObject.iter_1000_warmup_2000.warmup : Int)) / 1000) 1 :=
  ⟨rfl, by decide, rfl, by decide⟩

/-- C2 fails as stated: with `thin = 0` supplied, resolution succeeds and
`get_thin` returns 0. -/
theorem get_thin_zero_counterexample :
    nuts_args.ctor RObject.rcpp 0 false [("thin", RObject.numeric 0)] = Except.ok RObject.thin_0 ∧
    ¬ 1 ≤ RObject.thin_0.get_thin :=
  ⟨rfl, by decide⟩

/-- C2 (amended): on every input on which resolution succeeds, `get_thin` is
at least 1 provided key "thin" is absent or its supplied value is at least 1. -/
theorem get_thin_pos (R : Rcpp SEXP E) (time0 : Int) (test_grad0 : Bool) (in_ : List (String × SEXP))
    (r : nuts_args SEXP) (h : nuts_args.ctor R time0 test_grad0 in_ = Except.ok r)
    (hthin : ∀ x t, in_.lookup "thin" = some x → R.as_unsigned_int x = Except.ok t → 1 ≤ t) :
    1 ≤ r.get_thin := by
  obtain ⟨-, -, -, h4, -⟩ := (nuts_args_eq_ok_iff R time0 test_grad0 in_ r).1 h
  unfold nuts_args.get_thin
  cases hl : in_.lookup "thin" with
  | none =>
    rw [hl] at h4
    have h4 := Except.ok.inj h4
    rw [← h4]
    split <;> omega
  | some x =>
    rw [hl] at h4
    exact hthin x r.thin hl h4

/-- Instances of `get_thin_pos`: with "thin" absent (`iter = 5000`, thin 2), and
with `thin = 7` supplied. -/
theorem get_thin_pos_witness :
    (nuts_args.ctor RObject.rcpp 0 false [("iter", RObject.numeric 5000)]
        = Except.ok RObject.iter_5000 ∧
      1 ≤ RObject.iter_5000.get_thin) ∧
    (nuts_args.ctor RObject.rcpp 0 false [("iter", RObject.numeric 2000), ("thin", RObject.numeric 7)]
        = Except.ok RObject.iter_2000_thin_7 ∧
      1 ≤ RObject.iter_2000_thin_7.get_thin) :=
  ⟨⟨rfl, get_thin_pos RObject.rcpp 0 false [("iter", RObject.numeric 5000)] RObject.iter_5000 rfl
      (by intro x t hx; simp [List.lookup] at hx)⟩,
    rfl, get_thin_pos RObject.rcpp 0 false
      [("iter", RObject.numeric 2000), ("thin", RObject.numeric 7)] RObject.iter_2000_thin_7 rfl
      (by
        intro x t hx ht
        have hx7 : x = RObject.numeric 7 := by
          simpa [List.lookup] using hx.symm
        subst hx7
        have : t = 7 := (Except.ok.inj ht).symm
        omega)⟩

/-- C3: when key "warmup" is absent the resolved warmup is the resolved iter
halved (rounded down), when it is present the resolved warmup is the supplied
value; the resolved iter is the supplied value, 2000 when "iter" is absent. -/
theorem warmup_resolved (R : Rcpp SEXP E) (time0 : Int) (test_grad0 : Bool) (in_ : List (String × SEXP))
    (r : nuts_args SEXP) (h : nuts_args.ctor R time0 test_grad0 in_ = Except.ok r) :
    ("warmup" ∉ in_.map Prod.fst → r.warmup = r.iter / 2) ∧
    (∀ x w, in_.lookup "warmup" = some x → R.as_unsigned_int x = Except.ok w → r.warmup = w) ∧
    ("iter" ∉ in_.map Prod.fst → r.iter = 2000) ∧
    (∀ x n, in_.lookup "iter" = some x → R.as_unsigned_int x = Except.ok n → r.iter = n) := by
  obtain ⟨-, h2, h3, -⟩ := (nuts_args_eq_ok_iff R time0 test_grad0 in_ r).1 h
  refine ⟨?_, ?_, ?_, ?_⟩
  · intro ha
    rw [lookup_eq_none_of_not_mem in_ "warmup" ha] at h3
    exact (Except.ok.inj h3).symm
  · intro x w hx hw
    rw [hx] at h3
    exact (Except.ok.inj (h3.symm.trans hw))
  · intro ha
    rw [lookup_eq_none_of_not_mem in_ "iter" ha] at h2
    exact (Except.ok.inj h2).symm
  · intro x n hx hn
    rw [hx] at h2
    exact (Except.ok.inj (h2.symm.trans hn))

/-- Instance of `warmup_resolved`: `iter = 5000` with "warmup" absent gives
warmup 2500; `iter = 1000` with `warmup = 900` gives warmup 900. -/
theorem warmup_resolved_witness :
    (nuts_args.ctor RObject.rcpp 0 false [("iter", RObject.numeric 5000)]
        = Except.ok RObject.iter_5000 ∧
      RObject.iter_5000.iter = 5000 ∧ RObject.iter_5000.warmup = 2500 ∧
      RObject.iter_5000.warmup = RObject.iter_5000.iter / 2) ∧
    (nuts_args.ctor RObject.rcpp 0 false
          [("iter", RObject.numeric 1000), ("warmup", RObject.numeric 900)]
        = Except.ok RObject.iter_1000_warmup_900 ∧
      RObject.iter_1000_warmup_900.warmup = 900) :=
  ⟨⟨rfl, rfl, rfl,
      (warmup_resolved RObject.rcpp 0 false [("iter", RObject.numeric 5000)] RObject.iter_5000 rfl).1
        (by decide)⟩,
    rfl,
      (warmup_resolved RObject.rcpp 0 false
        [("iter", RObject.numeric 1000), ("warmup", RObject.numeric 900)]
        RObject.iter_1000_warmup_900 rfl).2.1 (RObject.numeric 900) 900 rfl rfl⟩

/-- C5: when key "thin" is present with an unsigned value t, the resolved thin
is t, whatever iter, warmup and the computed candidate are. -/
theorem thin_present (R : Rcpp SEXP E) (time0 : Int) (test_grad0 : Bool) (in_ : List (String × SEXP))
    (r : nuts_args SEXP) (h : nuts_args.ctor R time0 test_grad0 in_ = Except.ok r)
    (x : SEXP) (t : Nat) (hx : in_.lookup "thin" = some x)
    (ht : R.as_unsigned_int x = Except.ok t) :
    r.thin = t ∧ r.get_thin = t := by
  obtain ⟨-, -, -, h4, -⟩ := (nuts_args_eq_ok_iff R time0 test_grad0 in_ r).1 h
  rw [hx] at h4
  have := Except.ok.inj (h4.symm.trans ht)
  exact ⟨this, this⟩

/-- Instance of `thin_present`: `iter = 2000`, warmup absent, `thin = 7` gives
thin 7 (the candidate being (2000 - 1000) / 1000 = 1). -/
theorem thin_present_witness :
    nuts_args.ctor RObject.rcpp 0 false [("iter", RObject.numeric 2000), ("thin", RObject.numeric 7)]
      = Except.ok RObject.iter_2000_thin_7 ∧
    unsigned_sub RObject.iter_2000_thin_7.iter RObject.iter_2000_thin_7.warmup / 1000 = 1 ∧
    RObject.iter_2000_thin_7.thin = 7 ∧ RObject.iter_2000_thin_7.get_thin = 7 :=
  ⟨rfl, by decide,
    thin_present RObject.rcpp 0 false [("iter", RObject.numeric 2000), ("thin", RObject.numeric 7)]
      RObject.iter_2000_thin_7 rfl (RObject.numeric 7) 7 rfl rfl⟩

/-- C4: on every input on which resolution succeeds, each statically defaulted
member whose key is absent holds its documented default, whatever other keys
are present; and the empty list resolves, with warmup 1000 and thin 1. -/
theorem defaults_when_absent (R : Rcpp SEXP E) (time0 : Int) (test_grad0 : Bool) :
    (∀ (in_ : List (String × SEXP)) (r : nuts_args SEXP),
      nuts_args.ctor R time0 test_grad0 in_ = Except.ok r →
        ("sample_file" ∉ in_.map Prod.fst → r.sample_file = "samples.csv") ∧
        ("iter" ∉ in_.map Prod.fst → r.iter = 2000) ∧
        ("refresh" ∉ in_.map Prod.fst → r.refresh = 1) ∧
        ("leapfrog_steps" ∉ in_.map Prod.fst → r.leapfrog_steps = -1) ∧
        ("epsilon" ∉ in_.map Prod.fst → r.epsilon = -1.0) ∧
        ("epsilon_pm" ∉ in_.map Prod.fst → r.epsilon_pm = 0.0) ∧
        ("max_treedepth" ∉ in_.map Prod.fst → r.max_treedepth = 10) ∧
        ("epsilon_adapt" ∉ in_.map Prod.fst → r.epsilon_adapt = true) ∧
        ("delta" ∉ in_.map Prod.fst → r.delta = 0.5) ∧
        ("gamma" ∉ in_.map Prod.fst → r.gamma = 0.05) ∧
        ("chain_id" ∉ in_.map Prod.fst → r.chain_id = 1) ∧
        ("append_samples" ∉ in_.map Prod.fst → r.append_samples = false) ∧
        ("init" ∉ in_.map Prod.fst → r.init = "random") ∧
        ("init_list" ∉ in_.map Prod.fst → r.init_list = R.R_NilValue) ∧
        ("num_chains" ∉ in_.map Prod.fst → r.num_chains = 1)) ∧
    (∃ r0, nuts_args.ctor R time0 test_grad0 [] = Except.ok r0 ∧ r0.warmup = 1000 ∧ r0.thin = 1) := by
  refine ⟨?_, ⟨_, rfl, rfl, rfl⟩⟩
  intro in_ r h
  obtain ⟨h1, h2, -, -, h5, h6, h7, h8, h9, h10, h11, h12, -, h14, h15, h16, h17, h18, -⟩ :=
    (nuts_args_eq_ok_iff R time0 test_grad0 in_ r).1 h
  refine ⟨?_, ?_, ?_, ?_, ?_, ?_, ?_, ?_, ?_, ?_, ?_, ?_, ?_, ?_, ?_⟩
  · intro ha
    rw [lookup_eq_none_of_not_mem in_ _ ha] at h1
    exact (Except.ok.inj h1).symm
  · intro ha
    rw [lookup_eq_none_of_not_mem in_ _ ha] at h2
    exact (Except.ok.inj h2).symm
  · intro ha
    rw [lookup_eq_none_of_not_mem in_ _ ha] at h12
    exact (Except.ok.inj h12).symm
  · intro ha
    rw [lookup_eq_none_of_not_mem in_ _ ha] at h5
    exact (Except.ok.inj h5).symm
  · intro ha
    rw [lookup_eq_none_of_not_mem in_ _ ha] at h6
    exact (Except.ok.inj h6).symm
  · intro ha
    rw [lookup_eq_none_of_not_mem in_ _ ha] at h7
    exact (Except.ok.inj h7).symm
  · intro ha
    rw [lookup_eq_none_of_not_mem in_ _ ha] at h8
    exact (Except.ok.inj h8).symm
  · intro ha
    rw [lookup_eq_none_of_not_mem in_ _ ha] at h9
    exact (Except.ok.inj h9).symm
  · intro ha
    rw [lookup_eq_none_of_not_mem in_ _ ha] at h10
    exact (Except.ok.inj h10).symm
  · intro ha
    rw [lookup_eq_none_of_not_mem in_ _ ha] at h11
    exact (Except.ok.inj h11).symm
  · intro ha
    rw [lookup_eq_none_of_not_mem in_ _ ha] at h14
    exact (congrArg Prod.fst (Except.ok.inj h14)).symm
  · intro ha
    rw [lookup_eq_none_of_not_mem in_ _ ha] at h17
    exact (Except.ok.inj h17).symm
  · intro ha
    rw [lookup_eq_none_of_not_mem in_ _ ha] at h15
    exact (Except.ok.inj h15).symm
  · intro ha
    rw [lookup_eq_none_of_not_mem in_ _ ha] at h16
    exact h16.symm
  · intro ha
    rw [lookup_eq_none_of_not_mem in_ _ ha] at h18
    exact (Except.ok.inj h18).symm

/-- Instance of `defaults_when_absent`: the list holding `iter = 5000` alone
leaves every other member at its default, and the empty list resolves to the
record of all defaults. -/
theorem defaults_when_absent_witness :
    nuts_args.ctor RObject.rcpp 0 false [("iter", RObject.numeric 5000)]
      = Except.ok RObject.iter_5000 ∧
    nuts_args.ctor RObject.rcpp 0 false [] = Except.ok (RObject.defaults 0) ∧
    (RObject.defaults 0).warmup = 1000 ∧ (RObject.defaults 0).thin = 1 ∧
    RObject.iter_5000.sample_file = "samples.csv" ∧
    RObject.iter_5000.refresh = 1 ∧
    RObject.iter_5000.leapfrog_steps = -1 ∧
    RObject.iter_5000.epsilon = -1.0 ∧
    RObject.iter_5000.epsilon_pm = 0.0 ∧
    RObject.iter_5000.max_treedepth = 10 ∧
    RObject.iter_5000.epsilon_adapt = true ∧
    RObject.iter_5000.delta = 0.5 ∧
    RObject.iter_5000.gamma = 0.05 ∧
    RObject.iter_5000.chain_id = 1 ∧
    RObject.iter_5000.append_samples = false ∧
    RObject.iter_5000.init = "random" ∧
    RObject.iter_5000.init_list = RObject.null ∧
    RObject.iter_5000.num_chains = 1 :=
  have h := (defaults_when_absent RObject.rcpp 0 false).1 [("iter", RObject.numeric 5000)]
    RObject.iter_5000 rfl
  ⟨rfl, rfl, rfl, rfl,
    h.1 (by decide),
    h.2.2.1 (by decide),
    h.2.2.2.1 (by decide),
    h.2.2.2.2.1 (by decide),
    h.2.2.2.2.2.1 (by decide),
    h.2.2.2.2.2.2.1 (by decide),
    h.2.2.2.2.2.2.2.1 (by decide),
    h.2.2.2.2.2.2.2.2.1 (by decide),
    h.2.2.2.2.2.2.2.2.2.1 (by decide),
    h.2.2.2.2.2.2.2.2.2.2.1 (by decide),
    h.2.2.2.2.2.2.2.2.2.2.2.1 (by decide),
    h.2.2.2.2.2.2.2.2.2.2.2.2.1 (by decide),
    h.2.2.2.2.2.2.2.2.2.2.2.2.2.1 (by decide),
    h.2.2.2.2.2.2.2.2.2.2.2.2.2.2 (by decide)⟩

/-- C6 fails as stated: with `seed = 3000000000` supplied, an unsigned 32-bit
value, `get_random_seed` returns -1294967296. -/
theorem get_random_seed_counterexample :
    RObject.rcpp.as_unsigned_int (RObject.numeric 3000000000) = Except.ok 3000000000 ∧
    nuts_args.ctor RObject.rcpp 0 false [("seed", RObject.numeric 3000000000)]
      = Except.ok RObject.seed_3000000000 ∧
    RObject.seed_3000000000.get_random_seed = -1294967296 ∧
    RObject.seed_3000000000.get_random_seed ≠ 3000000000 :=
  ⟨rfl, rfl, rfl, by decide⟩

/-- C6 (amended): when key "seed" is absent, `random_seed_src` is "random" and
`random_seed` is the clock reading whenever that reading fits the type `int`;
when "seed" is present with unsigned value v, `random_seed_src` is "user" and
`get_random_seed` returns v whenever v is below 2 ^ 31; the tag takes no other
value. -/
theorem seed_resolved (R : Rcpp SEXP E) (time0 : Int) (test_grad0 : Bool) (in_ : List (String × SEXP))
    (r : nuts_args SEXP) (h : nuts_args.ctor R time0 test_grad0 in_ = Except.ok r) :
    ("seed" ∉ in_.map Prod.fst →
      r.get_random_seed_src = "random" ∧
      (-2 ^ 31 ≤ time0 → time0 < 2 ^ 31 → r.get_random_seed = time0)) ∧
    (∀ x v, in_.lookup "seed" = some x → R.as_unsigned_int x = Except.ok v →
      r.get_random_seed_src = "user" ∧ (v < 2 ^ 31 → r.get_random_seed = (v : Int))) ∧
    (r.get_random_seed_src = "random" ∨ r.get_random_seed_src = "user") := by
  obtain ⟨-, -, -, -, -, -, -, -, -, -, -, -, h13, -⟩ :=
    (nuts_args_eq_ok_iff R time0 test_grad0 in_ r).1 h
  unfold nuts_args.get_random_seed_src nuts_args.get_random_seed
  have hpresent : ∀ x, in_.lookup "seed" = some x →
      ∃ v, R.as_unsigned_int x = Except.ok v ∧ r.random_seed = to_int (v : Int) ∧
        r.random_seed_src = "user" := by
    intro x hx
    rw [hx] at h13
    obtain ⟨v, hv, hp⟩ := (bind_eq_ok_iff _ _ _).1 h13
    have hp := Except.ok.inj hp
    exact ⟨v, hv, (congrArg Prod.fst hp).symm, (congrArg Prod.snd hp).symm⟩
  refine ⟨?_, ?_, ?_⟩
  · intro ha
    rw [lookup_eq_none_of_not_mem in_ _ ha] at h13
    have hp := Except.ok.inj h13
    refine ⟨(congrArg Prod.snd hp).symm, ?_⟩
    intro hlo hhi
    have hseed : r.random_seed = to_int time0 := (congrArg Prod.fst hp).symm
    rw [hseed]
    unfold to_int
    omega
  · intro x v hx hv
    obtain ⟨w, hw, hseed, hsrc⟩ := hpresent x hx
    have hvw : w = v := Except.ok.inj (hw.symm.trans hv)
    subst hvw
    refine ⟨hsrc, ?_⟩
    intro hlt
    rw [hseed]
    unfold to_int
    omega
  · cases hl : in_.lookup "seed" with
    | none =>
      rw [hl] at h13
      exact Or.inl (congrArg Prod.snd (Except.ok.inj h13)).symm
    | some x =>
      obtain ⟨w, -, -, hsrc⟩ := hpresent x hl
      exact Or.inr hsrc

/-- Instances of `seed_resolved`: `seed = 42` gives random_seed 42 with tag
"user"; the empty list at clock reading 1351728000 gives that reading with tag
"random". -/
theorem seed_resolved_witness :
    (nuts_args.ctor RObject.rcpp 0 false [("seed", RObject.numeric 42)]
        = Except.ok RObject.seed_42 ∧
      RObject.seed_42.get_random_seed_src = "user" ∧
      ((42 : Nat) < 2 ^ 31 → RObject.seed_42.get_random_seed = ((42 : Nat) : Int))) ∧
    (nuts_args.ctor RObject.rcpp 1351728000 false [] = Except.ok (RObject.defaults 1351728000) ∧
      (RObject.defaults 1351728000).get_random_seed_src = "random" ∧
      (RObject.defaults 1351728000).get_random_seed = 1351728000) :=
  ⟨⟨rfl, (seed_resolved RObject.rcpp 0 false [("seed", RObject.numeric 42)] RObject.seed_42 rfl).2.1
      (RObject.numeric 42) 42 rfl rfl⟩,
    rfl,
    ((seed_resolved RObject.rcpp 1351728000 false [] (RObject.defaults 1351728000) rfl).1
      (by decide)).1,
    ((seed_resolved RObject.rcpp 1351728000 false [] (RObject.defaults 1351728000) rfl).1
      (by decide)).2 (by decide) (by decide)⟩

/-- C7: when key "chain_id" is absent, `chain_id` is 1 and `chain_id_src` is
"default"; when it is present with unsigned value c, `chain_id` is c and
`chain_id_src` is "user"; the tag takes no other value. -/
theorem chain_id_resolved (R : Rcpp SEXP E) (time0 : Int) (test_grad0 : Bool) (in_ : List (String × SEXP))
    (r : nuts_args SEXP) (h : nuts_args.ctor R time0 test_grad0 in_ = Except.ok r) :
    ("chain_id" ∉ in_.map Prod.fst →
      r.get_chain_id = 1 ∧ r.get_chain_id_src = "default") ∧
    (∀ x c, in_.lookup "chain_id" = some x → R.as_unsigned_int x = Except.ok c →
      r.get_chain_id = c ∧ r.get_chain_id_src = "user") ∧
    (r.get_chain_id_src = "default" ∨ r.get_chain_id_src = "user") := by
  obtain ⟨-, -, -, -, -, -, -, -, -, -, -, -, -, h14, -⟩ :=
    (nuts_args_eq_ok_iff R time0 test_grad0 in_ r).1 h
  unfold nuts_args.get_chain_id_src nuts_args.get_chain_id
  have hpresent : ∀ x, in_.lookup "chain_id" = some x →
      ∃ c, R.as_unsigned_int x = Except.ok c ∧ r.chain_id = c ∧ r.chain_id_src = "user" := by
    intro x hx
    rw [hx] at h14
    obtain ⟨c, hc, hp⟩ := (bind_eq_ok_iff _ _ _).1 h14
    have hp := Except.ok.inj hp
    exact ⟨c, hc, (congrArg Prod.fst hp).symm, (congrArg Prod.snd hp).symm⟩
  refine ⟨?_, ?_, ?_⟩
  · intro ha
    rw [lookup_eq_none_of_not_mem in_ _ ha] at h14
    have hp := Except.ok.inj h14
    exact ⟨(congrArg Prod.fst hp).symm, (congrArg Prod.snd hp).symm⟩
  · intro x c hx hc
    obtain ⟨w, hw, hid, hsrc⟩ := hpresent x hx
    have hcw : w = c := Except.ok.inj (hw.symm.trans hc)
    subst hcw
    exact ⟨hid, hsrc⟩
  · cases hl : in_.lookup "chain_id" with
    | none =>
      rw [hl] at h14
      exact Or.inl (congrArg Prod.snd (Except.ok.inj h14)).symm
    | some x =>
      obtain ⟨w, -, -, hsrc⟩ := hpresent x hl
      exact Or.inr hsrc

/-- Instances of `chain_id_resolved`: `chain_id = 3` gives chain_id 3 with tag
"user"; the empty list gives chain_id 1 with tag "default". -/
theorem chain_id_resolved_witness :
    (nuts_args.ctor RObject.rcpp 0 false [("chain_id", RObject.numeric 3)]
        = Except.ok RObject.chain_id_3 ∧
      RObject.chain_id_3.get_chain_id = 3 ∧ RObject.chain_id_3.get_chain_id_src = "user") ∧
    (nuts_args.ctor RObject.rcpp 0 false [] = Except.ok (RObject.defaults 0) ∧
      (RObject.defaults 0).get_chain_id = 1 ∧
      (RObject.defaults 0).get_chain_id_src = "default") :=
  ⟨⟨rfl, (chain_id_resolved RObject.rcpp 0 false [("chain_id", RObject.numeric 3)]
      RObject.chain_id_3 rfl).2.1 (RObject.numeric 3) 3 rfl rfl⟩,
    rfl, (chain_id_resolved RObject.rcpp 0 false [] (RObject.defaults 0) rfl).1 (by decide)⟩

/-- C8 (the code at the failing inputs): on the empty list `get_epsilon_pm`
returns -1.0, the value of `epsilon`, while the member `epsilon_pm` is 0.0; with
`epsilon_pm = 2` supplied it still returns -1.0, while the member is 2. For
every record the accessor returns the member `epsilon`. -/
theorem get_epsilon_pm_returns_epsilon :
    (nuts_args.ctor RObject.rcpp 0 false [] = Except.ok (RObject.defaults 0) ∧
      (RObject.defaults 0).get_epsilon_pm = -1.0 ∧
      (RObject.defaults 0).epsilon_pm = 0.0 ∧
      (RObject.defaults 0).get_epsilon_pm ≠ (RObject.defaults 0).epsilon_pm) ∧
    (nuts_args.ctor RObject.rcpp 0 false [("epsilon_pm", RObject.numeric 2)]
        = Except.ok RObject.epsilon_pm_2 ∧
      RObject.epsilon_pm_2.get_epsilon_pm = -1.0 ∧
      RObject.epsilon_pm_2.epsilon_pm = 2 ∧
      RObject.epsilon_pm_2.get_epsilon_pm ≠ RObject.epsilon_pm_2.epsilon_pm) ∧
    (∀ r : nuts_args RObject, r.get_epsilon_pm = r.epsilon) := by
  refine ⟨⟨rfl, rfl, rfl, ?_⟩, ⟨rfl, rfl, rfl, ?_⟩, fun _ => rfl⟩
  · show (-1.0 : ℚ) ≠ 0.0
    norm_num
  · show (-1.0 : ℚ) ≠ 2
    norm_num

/-- C9 (the code at the failing input): with `iter = 3000000000` supplied, an
unsigned 32-bit value, the member `iter` is 3000000000 and `get_iter` returns
-1294967296; `get_warmup`, an accessor of the same kind, returns its member. -/
theorem get_iter_signed :
    RObject.rcpp.as_unsigned_int (RObject.numeric 3000000000) = Except.ok 3000000000 ∧
    nuts_args.ctor RObject.rcpp 0 false [("iter", RObject.numeric 3000000000)]
      = Except.ok RObject.iter_3000000000 ∧
    RObject.iter_3000000000.iter = 3000000000 ∧
    RObject.iter_3000000000.get_iter = -1294967296 ∧
    RObject.iter_3000000000.get_iter ≠ (RObject.iter_3000000000.iter : Int) ∧
    RObject.iter_3000000000.get_warmup = RObject.iter_3000000000.warmup :=
  ⟨rfl, rfl, rfl, rfl, by decide, rfl⟩

theorem lookup_insert_of_ne (m : List (String × SEXP)) (k key : String) (x : SEXP) (p : Nat)
    (hne : key ≠ k) : (m.take p ++ (k, x) :: m.drop p).lookup key = m.lookup key := by
  have hb : (key == k) = false := by
    simp only [beq_eq_false_iff_ne, ne_eq]
    exact hne
  induction m generalizing p with
  | nil => simp [List.lookup, hb]
  | cons e m ih =>
    cases p with
    | zero => simp [List.lookup, hb]
    | succ p =>
      obtain ⟨k1, x1⟩ := e
      simp only [List.take_succ_cons, List.drop_succ_cons, List.cons_append, List.lookup]
      cases key == k1 with
      | true => rfl
      | false => exact ih p

/-- Two lists on which the lookups of the eighteen searched names agree are
resolved alike. -/
theorem ctor_congr (R : Rcpp SEXP E) (time0 : Int) (test_grad0 : Bool) (in1 in2 : List (String × SEXP))
    (h : ∀ key, key ∈ key_names → in1.lookup key = in2.lookup key) :
    nuts_args.ctor R time0 test_grad0 in1 = nuts_args.ctor R time0 test_grad0 in2 := by
  unfold nuts_args.ctor
  simp only [stanza_init_list_eq, stanza_eq, bind_assoc]
  simp only [h "sample_file" (by decide), h "iter" (by decide), h "warmup" (by decide),
    h "thin" (by decide), h "leapfrog_steps" (by decide), h "epsilon" (by decide),
    h "epsilon_pm" (by decide), h "max_treedepth" (by decide), h "epsilon_adapt" (by decide),
    h "delta" (by decide), h "gamma" (by decide), h "refresh" (by decide),
    h "seed" (by decide), h "chain_id" (by decide), h "init" (by decide),
    h "init_list" (by decide), h "append_samples" (by decide), h "num_chains" (by decide)]

/-- C10: an entry whose name is none of the eighteen searched names, inserted
at any position, leaves the outcome of the constructor unchanged (the same
record, or the same failure). -/
theorem unrecognized_key_ignored (R : Rcpp SEXP E) (time0 : Int) (test_grad0 : Bool) (m : List (String × SEXP))
    (k : String) (x : SEXP) (p : Nat) (hk : k ∉ key_names) :
    nuts_args.ctor R time0 test_grad0 (m.take p ++ (k, x) :: m.drop p) = nuts_args.ctor R time0 test_grad0 m := by
  apply ctor_congr
  intro key hkey
  apply lookup_insert_of_ne
  intro hkk
  exact hk (hkk ▸ hkey)

/-- Instances of `unrecognized_key_ignored`: an entry named "random_seed" put
after `iter = 5000`, and an entry named "test_grad" put before it, leave the
record unchanged. -/
theorem unrecognized_key_ignored_witness :
    ("random_seed" ∉ key_names ∧
      nuts_args.ctor RObject.rcpp 0 false
          ([("iter", RObject.numeric 5000)].take 1 ++ ("random_seed", RObject.numeric 42)
            :: [("iter", RObject.numeric 5000)].drop 1)
        = nuts_args.ctor RObject.rcpp 0 false [("iter", RObject.numeric 5000)]) ∧
    ("test_grad" ∉ key_names ∧
      nuts_args.ctor RObject.rcpp 0 false
          ([("iter", RObject.numeric 5000)].take 0 ++ ("test_grad", RObject.logical false)
            :: [("iter", RObject.numeric 5000)].drop 0)
        = nuts_args.ctor RObject.rcpp 0 false [("iter", RObject.numeric 5000)]) :=
  ⟨⟨by decide, unrecognized_key_ignored RObject.rcpp 0 false [("iter", RObject.numeric 5000)]
      "random_seed" (RObject.numeric 42) 1 (by decide)⟩,
    by decide, unrecognized_key_ignored RObject.rcpp 0 false [("iter", RObject.numeric 5000)]
      "test_grad" (RObject.logical false) 0 (by decide)⟩

/-- C14: `find_index v e` is the first position of `v` holding `e`, below the
size of `v`, when `e` occurs in `v`, and it is the size of `v` when `e` does
not occur; it is a total function. -/
theorem find_index_spec {T : Type} [DecidableEq T] (v : List T) (e : T) :
    (e ∈ v → find_index v e < v.length ∧ v[find_index v e]? = some e ∧
      ∀ j, j < find_index v e → v[j]? ≠ some e) ∧
    (e ∉ v → find_index v e = v.length) := by
  refine ⟨?_, (find_index_eq_length_iff v e).2⟩
  induction v with
  | nil => intro h; simp at h
  | cons x v ih =>
    intro h
    by_cases hx : x = e
    · subst hx
      simp [find_index]
    · have hmem : e ∈ v := by
        rcases List.mem_cons.1 h with h1 | h1
        · exact absurd h1.symm hx
        · exact h1
      obtain ⟨h1, h2, h3⟩ := ih hmem
      simp only [find_index, hx, if_false, List.length_cons]
      refine ⟨by omega, by simpa using h2, ?_⟩
      intro j hj
      cases j with
      | zero =>
        simp only [List.getElem?_cons_zero, ne_eq, Option.some.injEq]
        exact hx
      | succ j =>
        simp only [List.getElem?_cons_succ]
        exact h3 j (by omega)

/-- Instances of the lookup: "warmup" is found at index 1 of a three-name
vector in which it occurs twice, "thin" is not found in it and gives the size. -/
theorem find_index_spec_witness :
    ("warmup" ∈ ["iter", "warmup", "warmup"] ∧
      find_index ["iter", "warmup", "warmup"] "warmup" = 1 ∧
      find_index ["iter", "warmup", "warmup"] "warmup" < ["iter", "warmup", "warmup"].length ∧
      ["iter", "warmup", "warmup"][find_index ["iter", "warmup", "warmup"] "warmup"]?
        = some "warmup") ∧
    ("thin" ∉ ["iter", "warmup", "warmup"] ∧
      find_index ["iter", "warmup", "warmup"] "thin" = ["iter", "warmup", "warmup"].length) :=
  ⟨⟨by decide, by decide,
      ((find_index_spec ["iter", "warmup", "warmup"] "warmup").1 (by decide)).1,
      ((find_index_spec ["iter", "warmup", "warmup"] "warmup").1 (by decide)).2.1⟩,
    by decide, (find_index_spec ["iter", "warmup", "warmup"] "thin").2 (by decide)⟩

/-- C15 (the code at the failing input): on the empty list the constructor
sets `random_seed_src` to "random", which is neither "user" nor "default". -/
theorem random_seed_src_random :
    nuts_args.ctor RObject.rcpp 0 false [] = Except.ok (RObject.defaults 0) ∧
    (RObject.defaults 0).get_random_seed_src = "random" ∧
    ¬ ((RObject.defaults 0).get_random_seed_src = "user" ∨
      (RObject.defaults 0).get_random_seed_src = "default") :=
  ⟨rfl, rfl, by decide⟩

/-- C16: when key "thin" is absent, the resolved thin is
max(((iter - warmup) mod 2^32) / 1000, 1); when moreover the resolved warmup
exceeds the resolved iter, it is (2^32 - (warmup - iter)) / 1000 floored at 1. -/
theorem thin_absent_wraps (R : Rcpp SEXP E) (time0 : Int) (test_grad0 : Bool) (in_ : List (String × SEXP))
    (r : nuts_args SEXP) (h : nuts_args.ctor R time0 test_grad0 in_ = Except.ok r)
    (habsent : "thin" ∉ in_.map Prod.fst) :
    (r.thin : Int) = max ((((r.iter : Int) - (r.warmup : Int)) % 2 ^ 32) / 1000) 1 ∧
    (r.iter < r.warmup → r.thin = max ((2 ^ 32 - (r.warmup - r.iter)) / 1000) 1) := by
  obtain ⟨hi, hw⟩ := iter_warmup_range R time0 test_grad0 in_ r h
  obtain ⟨-, -, -, h4, -⟩ := (nuts_args_eq_ok_iff R time0 test_grad0 in_ r).1 h
  rw [lookup_eq_none_of_not_mem in_ "thin" habsent] at h4
  have h4 := Except.ok.inj h4
  have hs : ((unsigned_sub r.iter r.warmup : Nat) : Int)
      = ((r.iter : Int) - (r.warmup : Int)) % 2 ^ 32 := by
    unfold unsigned_sub
    omega
  constructor
  · rw [← h4, ← hs]
    split <;> omega
  · intro hlt
    have hs2 : unsigned_sub r.iter r.warmup = 2 ^ 32 - (r.warmup - r.iter) := by
      unfold unsigned_sub
      omega
    rw [← h4, hs2]
    split <;> omega

/-- Instance of the wrap-around: `iter = 1000`, `warmup = 2000` and "thin"
absent give thin 4294966. -/
theorem thin_absent_wraps_witness :
    nuts_args.ctor RObject.rcpp 0 false
        [("iter", RObject.numeric 1000), ("warmup", RObject.numeric 2000)]
      = Except.ok RObject.iter_1000_warmup_2000 ∧
    "thin" ∉ [("iter", RObject.numeric 1000), ("warmup", RObject.numeric 2000)].map Prod.fst ∧
    RObject.iter_1000_warmup_2000.iter < RObject.iter_1000_warmup_2000.warmup ∧
    RObject.iter_1000_warmup_2000.thin = 4294966 ∧
    RObject.iter_1000_warmup_2000.thin
      = max ((2 ^ 32 - (RObject.iter_1000_warmup_2000.warmup
          - RObject.iter_1000_warmup_2000.iter)) / 1000) 1 :=
  ⟨rfl, by decide, by decide, rfl,
    (thin_absent_wraps RObject.rcpp 0 false
      [("iter", RObject.numeric 1000), ("warmup", RObject.numeric 2000)]
      RObject.iter_1000_warmup_2000 rfl (by decide)).2 (by decide)⟩

/-- C17: when keys "warmup" and "thin" are both absent, the resolved warmup
does not exceed the resolved iter, the unsigned subtraction iter - warmup does
not wrap and equals iter halved and rounded up, the resolved thin is that
value divided by 1000 and floored at 1, and it lies between 1 and 2147483. -/
theorem thin_of_iter_alone (R : Rcpp SEXP E) (time0 : Int) (test_grad0 : Bool) (in_ : List (String × SEXP))
    (r : nuts_args SEXP) (h : nuts_args.ctor R time0 test_grad0 in_ = Except.ok r)
    (hwarmup : "warmup" ∉ in_.map Prod.fst) (hthin : "thin" ∉ in_.map Prod.fst) :
    r.iter < 2 ^ 32 ∧
    r.warmup ≤ r.iter ∧
    ((unsigned_sub r.iter r.warmup : Nat) : Int) = (r.iter : Int) - (r.warmup : Int) ∧
    unsigned_sub r.iter r.warmup = (r.iter + 1) / 2 ∧
    r.thin = max ((r.iter + 1) / 2 / 1000) 1 ∧
    1 ≤ r.thin ∧ r.thin ≤ 2147483 := by
  obtain ⟨hi, -⟩ := iter_warmup_range R time0 test_grad0 in_ r h
  obtain ⟨-, -, h3, h4, -⟩ := (nuts_args_eq_ok_iff R time0 test_grad0 in_ r).1 h
  rw [lookup_eq_none_of_not_mem in_ "warmup" hwarmup] at h3
  rw [lookup_eq_none_of_not_mem in_ "thin" hthin] at h4
  have h3 : r.iter / 2 = r.warmup := Except.ok.inj h3
  have h4 := Except.ok.inj h4
  have hle : r.warmup ≤ r.iter := by omega
  have hs := unsigned_sub_of_le r.iter r.warmup hi hle
  have hs2 : unsigned_sub r.iter r.warmup = (r.iter + 1) / 2 := by omega
  rw [hs2] at h4
  refine ⟨hi, hle, hs, hs2, ?_, ?_, ?_⟩
  · rw [← h4]
    split <;> omega
  · rw [← h4]
    split <;> omega
  · rw [← h4]
    split <;> omega

/-- Instance with `iter = 5000` alone: warmup 2500, no wrap, thin 2. -/
theorem thin_of_iter_alone_witness :
    nuts_args.ctor RObject.rcpp 0 false [("iter", RObject.numeric 5000)]
      = Except.ok RObject.iter_5000 ∧
    "warmup" ∉ [("iter", RObject.numeric 5000)].map Prod.fst ∧
    "thin" ∉ [("iter", RObject.numeric 5000)].map Prod.fst ∧
    RObject.iter_5000.warmup ≤ RObject.iter_5000.iter ∧
    RObject.iter_5000.thin = max ((RObject.iter_5000.iter + 1) / 2 / 1000) 1 ∧
    1 ≤ RObject.iter_5000.thin ∧ RObject.iter_5000.thin ≤ 2147483 :=
  have h := thin_of_iter_alone RObject.rcpp 0 false [("iter", RObject.numeric 5000)]
    RObject.iter_5000 rfl (by decide) (by decide)
  ⟨rfl, by decide, by decide, h.2.1, h.2.2.2.2.1, h.2.2.2.2.2.1, h.2.2.2.2.2.2⟩

/-- C11 fails as stated: the empty list resolved at clock readings 0 and 1
gives two records that differ in `random_seed`. -/
theorem resolve_twice_counterexample :
    nuts_args.ctor RObject.rcpp 0 false [] = Except.ok (RObject.defaults 0) ∧
    nuts_args.ctor RObject.rcpp 1 false [] = Except.ok (RObject.defaults 1) ∧
    (RObject.defaults 0).random_seed = 0 ∧
    (RObject.defaults 1).random_seed = 1 ∧
    RObject.defaults 0 ≠ RObject.defaults 1 :=
  ⟨rfl, rfl, rfl, rfl,
    fun heq => absurd (congrArg nuts_args.random_seed heq) (by decide)⟩

/-- C11 (amended): a list resolved at clock reading `t1` with record `r1` is
resolved at any clock reading `t2` too, whatever the storage of `test_grad`
held at either construction, with a record equal to `r1` in every member that
the constructor assigns other than `random_seed`, both tags included;
`random_seed` is equal too when key "seed" is present or the two readings are
equal. -/
theorem resolve_twice (R : Rcpp SEXP E) (t1 t2 : Int) (g1 g2 : Bool)
    (in_ : List (String × SEXP)) (r1 : nuts_args SEXP)
    (h : nuts_args.ctor R t1 g1 in_ = Except.ok r1) :
    ∃ r2, nuts_args.ctor R t2 g2 in_ = Except.ok r2 ∧
      r2.sample_file = r1.sample_file ∧
      r2.iter = r1.iter ∧
      r2.warmup = r1.warmup ∧
      r2.thin = r1.thin ∧
      r2.refresh = r1.refresh ∧
      r2.leapfrog_steps = r1.leapfrog_steps ∧
      r2.epsilon = r1.epsilon ∧
      r2.max_treedepth = r1.max_treedepth ∧
      r2.epsilon_pm = r1.epsilon_pm ∧
      r2.epsilon_adapt = r1.epsilon_adapt ∧
      r2.delta = r1.delta ∧
      r2.gamma = r1.gamma ∧
      r2.random_seed_src = r1.random_seed_src ∧
      r2.chain_id = r1.chain_id ∧
      r2.chain_id_src = r1.chain_id_src ∧
      r2.append_samples = r1.append_samples ∧
      r2.init = r1.init ∧
      r2.init_list = r1.init_list ∧
      r2.num_chains = r1.num_chains ∧
      ("seed" ∈ in_.map Prod.fst ∨ t1 = t2 → r2.random_seed = r1.random_seed) := by
  obtain ⟨h1, h2, h3, h4, h5, h6, h7, h8, h9, h10, h11, h12, h13, h14, h15, h16, h17, h18,
    -⟩ := (nuts_args_eq_ok_iff R t1 g1 in_ r1).1 h
  cases hl : in_.lookup "seed" with
  | none =>
    rw [hl] at h13
    have hsrc : r1.random_seed_src = "random" :=
      (congrArg Prod.snd (Except.ok.inj h13)).symm
    have hseed : r1.random_seed = to_int t1 :=
      (congrArg Prod.fst (Except.ok.inj h13)).symm
    refine ⟨{ r1 with random_seed := to_int t2, test_grad := g2 }, ?_,
      rfl, rfl, rfl, rfl, rfl, rfl, rfl, rfl, rfl, rfl, rfl, rfl, rfl, rfl, rfl, rfl, rfl, rfl, rfl, ?_⟩
    · refine (nuts_args_eq_ok_iff R t2 g2 in_ _).2
        ⟨h1, h2, h3, h4, h5, h6, h7, h8, h9, h10, h11, h12, ?_, h14, h15, h16, h17, h18, rfl⟩
      rw [hl]
      show Except.ok (to_int t2, "random") = Except.ok (to_int t2, r1.random_seed_src)
      rw [hsrc]
    · rintro (hmem | ht)
      · have hnone := (find_index_names_eq_length_iff in_ "seed").2 hl
        exact absurd hmem ((find_index_eq_length_iff _ _).1 hnone)
      · subst ht
        exact hseed.symm
  | some x =>
    rw [hl] at h13
    refine ⟨{ r1 with test_grad := g2 }, ?_,
      rfl, rfl, rfl, rfl, rfl, rfl, rfl, rfl, rfl, rfl, rfl, rfl, rfl, rfl, rfl, rfl, rfl, rfl, rfl, fun _ => rfl⟩
    refine (nuts_args_eq_ok_iff R t2 g2 in_ _).2
      ⟨h1, h2, h3, h4, h5, h6, h7, h8, h9, h10, h11, h12, ?_, h14, h15, h16, h17, h18, rfl⟩
    rw [hl]
    exact h13

/-- Instance of the repeated resolution: the list holding `seed = 42`,
resolved at clock reading 0, is resolved at clock reading 1, with another
content of the storage of `test_grad`, to a record with the same assigned
members, `random_seed` included. -/
theorem resolve_twice_witness :
    nuts_args.ctor RObject.rcpp 0 false [("seed", RObject.numeric 42)]
      = Except.ok RObject.seed_42 ∧
    ∃ r2, nuts_args.ctor RObject.rcpp 1 true [("seed", RObject.numeric 42)] = Except.ok r2 ∧
      r2.sample_file = RObject.seed_42.sample_file ∧
      r2.iter = RObject.seed_42.iter ∧
      r2.warmup = RObject.seed_42.warmup ∧
      r2.thin = RObject.seed_42.thin ∧
      r2.refresh = RObject.seed_42.refresh ∧
      r2.leapfrog_steps = RObject.seed_42.leapfrog_steps ∧
      r2.epsilon = RObject.seed_42.epsilon ∧
      r2.max_treedepth = RObject.seed_42.max_treedepth ∧
      r2.epsilon_pm = RObject.seed_42.epsilon_pm ∧
      r2.epsilon_adapt = RObject.seed_42.epsilon_adapt ∧
      r2.delta = RObject.seed_42.delta ∧
      r2.gamma = RObject.seed_42.gamma ∧
      r2.random_seed_src = RObject.seed_42.random_seed_src ∧
      r2.chain_id = RObject.seed_42.chain_id ∧
      r2.chain_id_src = RObject.seed_42.chain_id_src ∧
      r2.append_samples = RObject.seed_42.append_samples ∧
      r2.init = RObject.seed_42.init ∧
      r2.init_list = RObject.seed_42.init_list ∧
      r2.num_chains = RObject.seed_42.num_chains ∧
      ("seed" ∈ [("seed", RObject.numeric 42)].map Prod.fst ∨ (0 : Int) = 1
        → r2.random_seed = RObject.seed_42.random_seed) :=
  ⟨rfl, resolve_twice RObject.rcpp 0 1 false true [("seed", RObject.numeric 42)]
    RObject.seed_42 rfl⟩

theorem lookup_eq_some_iff_mem (m : List (String × SEXP)) (hm : (m.map Prod.fst).Nodup)
    (key : String) (x : SEXP) : m.lookup key = some x ↔ (key, x) ∈ m := by
  induction m with
  | nil => simp
  | cons e m ih =>
    obtain ⟨k, y⟩ := e
    rw [List.map_cons, List.nodup_cons] at hm
    by_cases hk : key = k
    · subst hk
      have hnot : (key, x) ∉ m := fun hin => hm.1 (List.mem_map.2 ⟨(key, x), hin, rfl⟩)
      simp only [List.lookup, beq_self_eq_true, Option.some.injEq, List.mem_cons, Prod.mk.injEq,
        true_and, hnot, or_false]
      exact eq_comm
    · have hb : (key == k) = false := by
        simp only [beq_eq_false_iff_ne, ne_eq]
        exact hk
      simp only [List.lookup, hb, List.mem_cons, Prod.mk.injEq, hk, false_and, false_or]
      exact ih hm.2

theorem lookup_perm (m1 m2 : List (String × SEXP)) (hm : (m1.map Prod.fst).Nodup)
    (hp : m1.Perm m2) (key : String) : m2.lookup key = m1.lookup key := by
  have hm2 : (m2.map Prod.fst).Nodup := (hp.map Prod.fst).nodup_iff.1 hm
  apply Option.ext
  intro x
  simp only [Option.mem_def]
  rw [lookup_eq_some_iff_mem m2 hm2, lookup_eq_some_iff_mem m1 hm, hp.mem_iff]

/-- C18: for a list whose names are pairwise distinct, every permutation of
its entries is resolved alike (the same record, or the same failure), at the
same clock reading. -/
theorem key_order_independent (R : Rcpp SEXP E) (time0 : Int) (test_grad0 : Bool) (m1 m2 : List (String × SEXP))
    (hm : (m1.map Prod.fst).Nodup) (hp : m1.Perm m2) :
    nuts_args.ctor R time0 test_grad0 m2 = nuts_args.ctor R time0 test_grad0 m1 := by
  apply ctor_congr
  intro key _
  exact lookup_perm m1 m2 hm hp key

/-- Instance of the order independence: `thin = 7` before `iter = 2000` is
resolved as `iter = 2000` before `thin = 7`. -/
theorem key_order_independent_witness :
    ([("iter", RObject.numeric 2000), ("thin", RObject.numeric 7)].map Prod.fst).Nodup ∧
    [("iter", RObject.numeric 2000), ("thin", RObject.numeric 7)].Perm
      [("thin", RObject.numeric 7), ("iter", RObject.numeric 2000)] ∧
    nuts_args.ctor RObject.rcpp 0 false [("thin", RObject.numeric 7), ("iter", RObject.numeric 2000)]
      = nuts_args.ctor RObject.rcpp 0 false
          [("iter", RObject.numeric 2000), ("thin", RObject.numeric 7)] ∧
    nuts_args.ctor RObject.rcpp 0 false [("thin", RObject.numeric 7), ("iter", RObject.numeric 2000)]
      = Except.ok RObject.iter_2000_thin_7 :=
  ⟨by decide, List.Perm.swap _ _ _,
    key_order_independent RObject.rcpp 0 false
      [("iter", RObject.numeric 2000), ("thin", RObject.numeric 7)]
      [("thin", RObject.numeric 7), ("iter", RObject.numeric 2000)]
      (by decide) (List.Perm.swap _ _ _),
    rfl⟩

theorem lookup_append_of_mem (m1 m2 : List (String × SEXP)) (key k : String)
    (hk : k ∈ m1.map Prod.fst) (x : SEXP) :
    (m1 ++ (k, x) :: m2).lookup key = (m1 ++ m2).lookup key := by
  induction m1 with
  | nil => simp at hk
  | cons e m ih =>
    obtain ⟨k1, y⟩ := e
    simp only [List.cons_append, List.lookup]
    cases hb : key == k1 with
    | true => rfl
    | false =>
      by_cases hkk : key = k
      · subst hkk
        have hne : ¬ key = k1 := by
          simpa using hb
        have hk2 : key ∈ m.map Prod.fst := by
          rcases List.mem_cons.1 hk with h1 | h1
          · exact absurd h1 hne
          · exact h1
        exact ih hk2
      · by_cases hmem : k ∈ m.map Prod.fst
        · exact ih hmem
        · have hb2 : (key == k) = false := by
            simp only [beq_eq_false_iff_ne, ne_eq]
            exact hkk
          clear ih hk
          induction m with
          | nil => simp [List.lookup, hb2]
          | cons e2 m ih2 =>
            obtain ⟨k2, y2⟩ := e2
            simp only [List.cons_append, List.lookup]
            cases key == k2 with
            | true => rfl
            | false =>
              apply ih2
              intro hin
              exact hmem (List.mem_cons_of_mem _ hin)

theorem find_index_append_of_not_mem {T : Type} [DecidableEq T] (v1 v2 : List T) (e : T)
    (h : e ∉ v1) : find_index (v1 ++ e :: v2) e = v1.length := by
  induction v1 with
  | nil => simp [find_index]
  | cons a v ih =>
    have ha : ¬ a = e := fun hae => h (hae ▸ List.mem_cons_self a v)
    have hv : e ∉ v := fun hin => h (List.mem_cons_of_mem a hin)
    simp only [List.cons_append, find_index, ha, if_false, List.length_cons]
    show find_index (v ++ e :: v2) e + 1 = v.length + 1
    rw [ih hv]

theorem index_append_length (R : Rcpp SEXP E) (m1 m2 : List (String × SEXP)) (k : String)
    (x : SEXP) : index R (m1 ++ (k, x) :: m2) m1.length = Except.ok x := by
  induction m1 with
  | nil => simp [index]
  | cons e m ih =>
    unfold index at ih ⊢
    simpa using ih

theorem lookup_append_of_not_mem (m1 m2 : List (String × SEXP)) (k : String) (x : SEXP)
    (h : k ∉ m1.map Prod.fst) : (m1 ++ (k, x) :: m2).lookup k = some x := by
  induction m1 with
  | nil => simp [List.lookup]
  | cons e m ih =>
    obtain ⟨k1, y⟩ := e
    have hne : ¬ k = k1 := fun hkk => h (by simp [hkk])
    have hm : k ∉ m.map Prod.fst := fun hin => h (by simp [hin])
    have hb : (k == k1) = false := by
      simp only [beq_eq_false_iff_ne, ne_eq]
      exact hne
    simp only [List.cons_append, List.lookup, hb]
    exact ih hm

/-- C19: in a list in which a name occurs more than once, the search of that
name stops at its first occurrence and the element access yields the value
there; a later entry of that name has no effect: removing it, or changing its
value, leaves the outcome unchanged; and in every record built from the list,
the member of that name is resolved from the value at the first occurrence,
by the coercion of its stanza. -/
theorem later_duplicate_ignored (R : Rcpp SEXP E) (time0 : Int) (test_grad0 : Bool)
    (m1 m2 m3 : List (String × SEXP)) (k : String) (x y z : SEXP)
    (hfirst : k ∉ m1.map Prod.fst) :
    find_index ((m1 ++ (k, x) :: m2 ++ (k, y) :: m3).map Prod.fst) k = m1.length ∧
    index R (m1 ++ (k, x) :: m2 ++ (k, y) :: m3) m1.length = Except.ok x ∧
    nuts_args.ctor R time0 test_grad0 (m1 ++ (k, x) :: m2 ++ (k, y) :: m3)
      = nuts_args.ctor R time0 test_grad0 (m1 ++ (k, x) :: m2 ++ m3) ∧
    nuts_args.ctor R time0 test_grad0 (m1 ++ (k, x) :: m2 ++ (k, y) :: m3)
      = nuts_args.ctor R time0 test_grad0 (m1 ++ (k, x) :: m2 ++ (k, z) :: m3) ∧
    (∀ r, nuts_args.ctor R time0 test_grad0 (m1 ++ (k, x) :: m2 ++ (k, y) :: m3)
        = Except.ok r →
      (k = "sample_file" → R.as_string x = Except.ok r.sample_file) ∧
      (k = "iter" → R.as_unsigned_int x = Except.ok r.iter) ∧
      (k = "warmup" → R.as_unsigned_int x = Except.ok r.warmup) ∧
      (k = "thin" → R.as_unsigned_int x = Except.ok r.thin) ∧
      (k = "leapfrog_steps" → R.as_int x = Except.ok r.leapfrog_steps) ∧
      (k = "epsilon" → R.as_double x = Except.ok r.epsilon) ∧
      (k = "epsilon_pm" → R.as_double x = Except.ok r.epsilon_pm) ∧
      (k = "max_treedepth" → R.as_int x = Except.ok r.max_treedepth) ∧
      (k = "epsilon_adapt" → R.as_bool x = Except.ok r.epsilon_adapt) ∧
      (k = "delta" → R.as_double x = Except.ok r.delta) ∧
      (k = "gamma" → R.as_double x = Except.ok r.gamma) ∧
      (k = "refresh" → R.as_unsigned_int x = Except.ok r.refresh) ∧
      (k = "seed" → ∃ n : Nat, R.as_unsigned_int x = Except.ok n ∧
        r.random_seed = to_int (n : Int) ∧ r.random_seed_src = "user") ∧
      (k = "chain_id" → R.as_unsigned_int x = Except.ok r.chain_id ∧ r.chain_id_src = "user") ∧
      (k = "init" → R.as_string x = Except.ok r.init) ∧
      (k = "init_list" → r.init_list = x) ∧
      (k = "append_samples" → R.as_bool x = Except.ok r.append_samples) ∧
      (k = "num_chains" → R.as_size_t x = Except.ok r.num_chains)) := by
  have hmem : k ∈ (m1 ++ (k, x) :: m2).map Prod.fst := by simp
  have hremove : ∀ w : SEXP,
      nuts_args.ctor R time0 test_grad0 (m1 ++ (k, x) :: m2 ++ (k, w) :: m3)
        = nuts_args.ctor R time0 test_grad0 (m1 ++ (k, x) :: m2 ++ m3) := by
    intro w
    apply ctor_congr
    intro key _
    exact lookup_append_of_mem (m1 ++ (k, x) :: m2) m3 key k hmem w
  have hlook : (m1 ++ (k, x) :: m2 ++ (k, y) :: m3).lookup k = some x := by
    rw [List.append_assoc]
    exact lookup_append_of_not_mem m1 _ k x hfirst
  refine ⟨?_, ?_, hremove y, (hremove y).trans (hremove z).symm, ?_⟩
  · have hfind := find_index_append_of_not_mem (m1.map Prod.fst)
      ((m2 ++ (k, y) :: m3).map Prod.fst) k hfirst
    rw [List.length_map] at hfind
    rw [← hfind, List.append_assoc, List.map_append]
    rfl
  · rw [List.append_assoc]
    exact index_append_length R m1 _ k x
  intro r hr
  obtain ⟨h1, h2, h3, h4, h5, h6, h7, h8, h9, h10, h11, h12, h13, h14, h15, h16, h17, h18,
    -⟩ := (nuts_args_eq_ok_iff R time0 test_grad0 _ r).1 hr
  refine ⟨?_, ?_, ?_, ?_, ?_, ?_, ?_, ?_, ?_, ?_, ?_, ?_, ?_, ?_, ?_, ?_, ?_, ?_⟩
  · intro hk
    subst hk
    rw [hlook] at h1
    exact h1
  · intro hk
    subst hk
    rw [hlook] at h2
    exact h2
  · intro hk
    subst hk
    rw [hlook] at h3
    exact h3
  · intro hk
    subst hk
    rw [hlook] at h4
    exact h4
  · intro hk
    subst hk
    rw [hlook] at h5
    exact h5
  · intro hk
    subst hk
    rw [hlook] at h6
    exact h6
  · intro hk
    subst hk
    rw [hlook] at h7
    exact h7
  · intro hk
    subst hk
    rw [hlook] at h8
    exact h8
  · intro hk
    subst hk
    rw [hlook] at h9
    exact h9
  · intro hk
    subst hk
    rw [hlook] at h10
    exact h10
  · intro hk
    subst hk
    rw [hlook] at h11
    exact h11
  · intro hk
    subst hk
    rw [hlook] at h12
    exact h12
  · intro hk
    subst hk
    rw [hlook] at h13
    obtain ⟨n, hn, hp⟩ := (bind_eq_ok_iff _ _ _).1 h13
    have hp := Except.ok.inj hp
    exact ⟨n, hn, (congrArg Prod.fst hp).symm, (congrArg Prod.snd hp).symm⟩
  · intro hk
    subst hk
    rw [hlook] at h14
    obtain ⟨n, hn, hp⟩ := (bind_eq_ok_iff _ _ _).1 h14
    have hp := Except.ok.inj hp
    have hid : n = r.chain_id := congrArg Prod.fst hp
    exact ⟨hid ▸ hn, (congrArg Prod.snd hp).symm⟩
  · intro hk
    subst hk
    rw [hlook] at h15
    exact h15
  · intro hk
    subst hk
    rw [hlook] at h16
    exact h16.symm
  · intro hk
    subst hk
    rw [hlook] at h17
    exact h17
  · intro hk
    subst hk
    rw [hlook] at h18
    exact h18

/-- Instances of the duplicate rule: `iter = 5000` followed by `iter = 1000`
resolves as `iter = 5000` alone, with iter 5000; `refresh = 5` followed by
`refresh = 9` resolves with refresh 5. -/
theorem later_duplicate_ignored_witness :
    ("iter" ∉ ([] : List (String × RObject)).map Prod.fst ∧
      find_index
          (([] ++ ("iter", RObject.numeric 5000) :: [] ++ ("iter", RObject.numeric 1000) :: []
            : List (String × RObject)).map Prod.fst) "iter" = 0 ∧
      nuts_args.ctor RObject.rcpp 0 false
          ([] ++ ("iter", RObject.numeric 5000) :: [] ++ ("iter", RObject.numeric 1000) :: [])
        = nuts_args.ctor RObject.rcpp 0 false
            ([] ++ ("iter", RObject.numeric 5000) :: [] ++ []) ∧
      nuts_args.ctor RObject.rcpp 0 false
          [("iter", RObject.numeric 5000), ("iter", RObject.numeric 1000)]
        = Except.ok RObject.iter_5000 ∧
      RObject.rcpp.as_unsigned_int (RObject.numeric 5000)
        = Except.ok RObject.iter_5000.iter) ∧
    ("refresh" ∉ ([] : List (String × RObject)).map Prod.fst ∧
      nuts_args.ctor RObject.rcpp 0 false
          [("refresh", RObject.numeric 5), ("refresh", RObject.numeric 9)]
        = Except.ok RObject.refresh_5 ∧
      RObject.rcpp.as_unsigned_int (RObject.numeric 5)
        = Except.ok RObject.refresh_5.refresh ∧
      RObject.refresh_5.refresh = 5) :=
  have h := later_duplicate_ignored RObject.rcpp 0 false [] [] [] "iter"
    (RObject.numeric 5000) (RObject.numeric 1000) (RObject.numeric 1000) (by decide)
  have h2 := later_duplicate_ignored RObject.rcpp 0 false [] [] [] "refresh"
    (RObject.numeric 5) (RObject.numeric 9) (RObject.numeric 9) (by decide)
  ⟨⟨by decide, h.1, h.2.2.1, rfl, (h.2.2.2.2 RObject.iter_5000 rfl).2.1 rfl⟩,
    by decide, rfl,
    (h2.2.2.2.2 RObject.refresh_5 rfl).2.2.2.2.2.2.2.2.2.2.2.1 rfl, rfl⟩


theorem toBool_eq_true_iff {α : Type} (y : Except E α) :
    y.toBool = true ↔ ∃ a, y = Except.ok a := by
  cases y with
  | error e => simp [Except.toBool]
  | ok a => simp [Except.toBool]

theorem stanza_ok {T : Type} (o : Option SEXP) (d : T) (f : SEXP → Except E T)
    (hf : ∀ x, o = some x → ∃ a, f x = Except.ok a) :
    ∃ a, o.elim (Except.ok d) f = Except.ok a := by
  cases o with
  | none => exact ⟨d, rfl⟩
  | some x => exact hf x rfl

theorem bind_ok_of_ok {α β : Type} (s : Except E α) (k : α → Except E β)
    (hs : ∃ a, s = Except.ok a) (hk : ∀ a, ∃ b, k a = Except.ok b) :
    ∃ b, (s >>= k) = Except.ok b := by
  obtain ⟨a, ha⟩ := hs
  obtain ⟨b, hb⟩ := hk a
  exact ⟨b, by rw [ha]; exact hb⟩

/-- When every searched name that is present carries a coercible value, the
constructor returns a record. -/
theorem ctor_ok_of_coercible (R : Rcpp SEXP E) (time0 : Int) (test_grad0 : Bool) (in_ : List (String × SEXP))
    (hc : ∀ key ty x, (key, ty) ∈ key_types → in_.lookup key = some x →
      coercible R ty x = true) :
    ∃ r, nuts_args.ctor R time0 test_grad0 in_ = Except.ok r := by
  have hp : ∀ {α : Type} (a : α), (pure a : Except E α) = Except.ok a := fun _ => rfl
  unfold nuts_args.ctor
  simp only [stanza_init_list_eq, stanza_eq, bind_assoc]
  simp only [hp]
  refine bind_ok_of_ok _ _ (stanza_ok _ _ _ (fun x hx => ?_)) (fun _ => ?_)
  · exact (toBool_eq_true_iff _).1 (hc "sample_file" field_type.string x (by decide) hx)
  refine bind_ok_of_ok _ _ (stanza_ok _ _ _ (fun x hx => ?_)) (fun _ => ?_)
  · exact (toBool_eq_true_iff _).1 (hc "iter" field_type.unsigned_int x (by decide) hx)
  refine bind_ok_of_ok _ _ (stanza_ok _ _ _ (fun x hx => ?_)) (fun _ => ?_)
  · exact (toBool_eq_true_iff _).1 (hc "warmup" field_type.unsigned_int x (by decide) hx)
  refine bind_ok_of_ok _ _ (stanza_ok _ _ _ (fun x hx => ?_)) (fun _ => ?_)
  · exact (toBool_eq_true_iff _).1 (hc "thin" field_type.unsigned_int x (by decide) hx)
  refine bind_ok_of_ok _ _ (stanza_ok _ _ _ (fun x hx => ?_)) (fun _ => ?_)
  · exact (toBool_eq_true_iff _).1 (hc "leapfrog_steps" field_type.int x (by decide) hx)
  refine bind_ok_of_ok _ _ (stanza_ok _ _ _ (fun x hx => ?_)) (fun _ => ?_)
  · exact (toBool_eq_true_iff _).1 (hc "epsilon" field_type.double x (by decide) hx)
  refine bind_ok_of_ok _ _ (stanza_ok _ _ _ (fun x hx => ?_)) (fun _ => ?_)
  · exact (toBool_eq_true_iff _).1 (hc "epsilon_pm" field_type.double x (by decide) hx)
  refine bind_ok_of_ok _ _ (stanza_ok _ _ _ (fun x hx => ?_)) (fun _ => ?_)
  · exact (toBool_eq_true_iff _).1 (hc "max_treedepth" field_type.int x (by decide) hx)
  refine bind_ok_of_ok _ _ (stanza_ok _ _ _ (fun x hx => ?_)) (fun _ => ?_)
  · exact (toBool_eq_true_iff _).1 (hc "epsilon_adapt" field_type.bool x (by decide) hx)
  refine bind_ok_of_ok _ _ (stanza_ok _ _ _ (fun x hx => ?_)) (fun _ => ?_)
  · exact (toBool_eq_true_iff _).1 (hc "delta" field_type.double x (by decide) hx)
  refine bind_ok_of_ok _ _ (stanza_ok _ _ _ (fun x hx => ?_)) (fun _ => ?_)
  · exact (toBool_eq_true_iff _).1 (hc "gamma" field_type.double x (by decide) hx)
  refine bind_ok_of_ok _ _ (stanza_ok _ _ _ (fun x hx => ?_)) (fun _ => ?_)
  · exact (toBool_eq_true_iff _).1 (hc "refresh" field_type.unsigned_int x (by decide) hx)
  refine bind_ok_of_ok _ _ (stanza_ok _ _ _ (fun x hx => ?_)) (fun _ => ?_)
  · obtain ⟨n, hn⟩ := (toBool_eq_true_iff _).1
      (hc "seed" field_type.unsigned_int x (by decide) hx)
    exact ⟨_, by rw [hn]; rfl⟩
  refine bind_ok_of_ok _ _ (stanza_ok _ _ _ (fun x hx => ?_)) (fun _ => ?_)
  · obtain ⟨n, hn⟩ := (toBool_eq_true_iff _).1
      (hc "chain_id" field_type.unsigned_int x (by decide) hx)
    exact ⟨_, by rw [hn]; rfl⟩
  refine bind_ok_of_ok _ _ (stanza_ok _ _ _ (fun x hx => ?_)) (fun _ => ?_)
  · exact (toBool_eq_true_iff _).1 (hc "init" field_type.string x (by decide) hx)
  refine bind_ok_of_ok _ _ ⟨_, rfl⟩ (fun _ => ?_)
  refine bind_ok_of_ok _ _ (stanza_ok _ _ _ (fun x hx => ?_)) (fun _ => ?_)
  · exact (toBool_eq_true_iff _).1 (hc "append_samples" field_type.bool x (by decide) hx)
  refine bind_ok_of_ok _ _ (stanza_ok _ _ _ (fun x hx => ?_)) (fun _ => ?_)
  · exact (toBool_eq_true_iff _).1 (hc "num_chains" field_type.size_t x (by decide) hx)
  exact ⟨_, rfl⟩

/-- When the constructor returns a record, every searched name that is
present carries a coercible value. -/
theorem coercible_of_ctor_ok (R : Rcpp SEXP E) (time0 : Int) (test_grad0 : Bool) (in_ : List (String × SEXP))
    (r : nuts_args SEXP) (h : nuts_args.ctor R time0 test_grad0 in_ = Except.ok r)
    (key : String) (ty : field_type) (x : SEXP) (hmem : (key, ty) ∈ key_types)
    (hx : in_.lookup key = some x) : coercible R ty x = true := by
  obtain ⟨h1, h2, h3, h4, h5, h6, h7, h8, h9, h10, h11, h12, h13, h14, h15, h16, h17, h18,
    -⟩ := (nuts_args_eq_ok_iff R time0 test_grad0 in_ r).1 h
  simp only [key_types, List.mem_cons, Prod.mk.injEq, List.not_mem_nil, or_false] at hmem
  rcases hmem with ⟨hk_sample_file, ht_sample_file⟩ |
    ⟨hk_iter, ht_iter⟩ |
    ⟨hk_warmup, ht_warmup⟩ |
    ⟨hk_thin, ht_thin⟩ |
    ⟨hk_leapfrog_steps, ht_leapfrog_steps⟩ |
    ⟨hk_epsilon, ht_epsilon⟩ |
    ⟨hk_epsilon_pm, ht_epsilon_pm⟩ |
    ⟨hk_max_treedepth, ht_max_treedepth⟩ |
    ⟨hk_epsilon_adapt, ht_epsilon_adapt⟩ |
    ⟨hk_delta, ht_delta⟩ |
    ⟨hk_gamma, ht_gamma⟩ |
    ⟨hk_refresh, ht_refresh⟩ |
    ⟨hk_seed, ht_seed⟩ |
    ⟨hk_chain_id, ht_chain_id⟩ |
    ⟨hk_init, ht_init⟩ |
    ⟨hk_init_list, ht_init_list⟩ |
    ⟨hk_append_samples, ht_append_samples⟩ |
    ⟨hk_num_chains, ht_num_chains⟩
  · subst hk_sample_file ht_sample_file
    rw [hx] at h1
    exact (toBool_eq_true_iff _).2 ⟨_, h1⟩
  · subst hk_iter ht_iter
    rw [hx] at h2
    exact (toBool_eq_true_iff _).2 ⟨_, h2⟩
  · subst hk_warmup ht_warmup
    rw [hx] at h3
    exact (toBool_eq_true_iff _).2 ⟨_, h3⟩
  · subst hk_thin ht_thin
    rw [hx] at h4
    exact (toBool_eq_true_iff _).2 ⟨_, h4⟩
  · subst hk_leapfrog_steps ht_leapfrog_steps
    rw [hx] at h5
    exact (toBool_eq_true_iff _).2 ⟨_, h5⟩
  · subst hk_epsilon ht_epsilon
    rw [hx] at h6
    exact (toBool_eq_true_iff _).2 ⟨_, h6⟩
  · subst hk_epsilon_pm ht_epsilon_pm
    rw [hx] at h7
    exact (toBool_eq_true_iff _).2 ⟨_, h7⟩
  · subst hk_max_treedepth ht_max_treedepth
    rw [hx] at h8
    exact (toBool_eq_true_iff _).2 ⟨_, h8⟩
  · subst hk_epsilon_adapt ht_epsilon_adapt
    rw [hx] at h9
    exact (toBool_eq_true_iff _).2 ⟨_, h9⟩
  · subst hk_delta ht_delta
    rw [hx] at h10
    exact (toBool_eq_true_iff _).2 ⟨_, h10⟩
  · subst hk_gamma ht_gamma
    rw [hx] at h11
    exact (toBool_eq_true_iff _).2 ⟨_, h11⟩
  · subst hk_refresh ht_refresh
    rw [hx] at h12
    exact (toBool_eq_true_iff _).2 ⟨_, h12⟩
  · subst hk_seed ht_seed
    rw [hx] at h13
    obtain ⟨n, hn, -⟩ := (bind_eq_ok_iff _ _ _).1 h13
    exact (toBool_eq_true_iff _).2 ⟨n, hn⟩
  · subst hk_chain_id ht_chain_id
    rw [hx] at h14
    obtain ⟨n, hn, -⟩ := (bind_eq_ok_iff _ _ _).1 h14
    exact (toBool_eq_true_iff _).2 ⟨n, hn⟩
  · subst hk_init ht_init
    rw [hx] at h15
    exact (toBool_eq_true_iff _).2 ⟨_, h15⟩
  · subst hk_init_list ht_init_list
    rfl
  · subst hk_append_samples ht_append_samples
    rw [hx] at h17
    exact (toBool_eq_true_iff _).2 ⟨_, h17⟩
  · subst hk_num_chains ht_num_chains
    rw [hx] at h18
    exact (toBool_eq_true_iff _).2 ⟨_, h18⟩

theorem bind_eq_error {α β : Type} (s : Except E α) (k : α → Except E β) (e : E)
    (h : (s >>= k) = Except.error e) : s = Except.error e ∨ ∃ a, k a = Except.error e := by
  cases s with
  | error e1 =>
    have h2 : (Except.error e1 : Except E β) = Except.error e := h
    exact Or.inl (by rw [Except.error.inj h2])
  | ok a => exact Or.inr ⟨a, h⟩

theorem stanza_error {T : Type} (o : Option SEXP) (d : T) (f : SEXP → Except E T) (e : E)
    (h : o.elim (Except.ok d) f = Except.error e) : ∃ x, o = some x ∧ f x = Except.error e := by
  cases o with
  | none => cases h
  | some x => exact ⟨x, rfl, h⟩

theorem bind_ok_eq_error {α β : Type} (s : Except E α) (g : α → β) (e : E)
    (h : (s >>= fun a => Except.ok (g a)) = Except.error e) : s = Except.error e := by
  cases s with
  | error e1 =>
    have h2 : (Except.error e1 : Except E β) = Except.error e := h
    rw [Except.error.inj h2]
  | ok a => cases h

/-- Every failure of the constructor is the exception raised by the coercion
of the value of a searched name that is present. -/
theorem ctor_error_origin (R : Rcpp SEXP E) (time0 : Int) (test_grad0 : Bool) (in_ : List (String × SEXP))
    (e : E) (h : nuts_args.ctor R time0 test_grad0 in_ = Except.error e) :
    ∃ key ty x, (key, ty) ∈ key_types ∧ in_.lookup key = some x ∧
      coercion_failure R ty x = some e := by
  have hp : ∀ {α : Type} (a : α), (pure a : Except E α) = Except.ok a := fun _ => rfl
  unfold nuts_args.ctor at h
  simp only [stanza_init_list_eq, stanza_eq, bind_assoc] at h
  simp only [hp] at h
  rcases bind_eq_error _ _ _ h with hs | ⟨_, h⟩
  · obtain ⟨x, hx, hf⟩ := stanza_error _ _ _ _ hs
    exact ⟨"sample_file", field_type.string, x, by decide, hx, by simp only [coercion_failure, hf, raised]⟩
  rcases bind_eq_error _ _ _ h with hs | ⟨_, h⟩
  · obtain ⟨x, hx, hf⟩ := stanza_error _ _ _ _ hs
    exact ⟨"iter", field_type.unsigned_int, x, by decide, hx, by simp only [coercion_failure, hf, raised]⟩
  rcases bind_eq_error _ _ _ h with hs | ⟨_, h⟩
  · obtain ⟨x, hx, hf⟩ := stanza_error _ _ _ _ hs
    exact ⟨"warmup", field_type.unsigned_int, x, by decide, hx, by simp only [coercion_failure, hf, raised]⟩
  rcases bind_eq_error _ _ _ h with hs | ⟨_, h⟩
  · obtain ⟨x, hx, hf⟩ := stanza_error _ _ _ _ hs
    exact ⟨"thin", field_type.unsigned_int, x, by decide, hx, by simp only [coercion_failure, hf, raised]⟩
  rcases bind_eq_error _ _ _ h with hs | ⟨_, h⟩
  · obtain ⟨x, hx, hf⟩ := stanza_error _ _ _ _ hs
    exact ⟨"leapfrog_steps", field_type.int, x, by decide, hx, by simp only [coercion_failure, hf, raised]⟩
  rcases bind_eq_error _ _ _ h with hs | ⟨_, h⟩
  · obtain ⟨x, hx, hf⟩ := stanza_error _ _ _ _ hs
    exact ⟨"epsilon", field_type.double, x, by decide, hx, by simp only [coercion_failure, hf, raised]⟩
  rcases bind_eq_error _ _ _ h with hs | ⟨_, h⟩
  · obtain ⟨x, hx, hf⟩ := stanza_error _ _ _ _ hs
    exact ⟨"epsilon_pm", field_type.double, x, by decide, hx, by simp only [coercion_failure, hf, raised]⟩
  rcases bind_eq_error _ _ _ h with hs | ⟨_, h⟩
  · obtain ⟨x, hx, hf⟩ := stanza_error _ _ _ _ hs
    exact ⟨"max_treedepth", field_type.int, x, by decide, hx, by simp only [coercion_failure, hf, raised]⟩
  rcases bind_eq_error _ _ _ h with hs | ⟨_, h⟩
  · obtain ⟨x, hx, hf⟩ := stanza_error _ _ _ _ hs
    exact ⟨"epsilon_adapt", field_type.bool, x, by decide, hx, by simp only [coercion_failure, hf, raised]⟩
  rcases bind_eq_error _ _ _ h with hs | ⟨_, h⟩
  · obtain ⟨x, hx, hf⟩ := stanza_error _ _ _ _ hs
    exact ⟨"delta", field_type.double, x, by decide, hx, by simp only [coercion_failure, hf, raised]⟩
  rcases bind_eq_error _ _ _ h with hs | ⟨_, h⟩
  · obtain ⟨x, hx, hf⟩ := stanza_error _ _ _ _ hs
    exact ⟨"gamma", field_type.double, x, by decide, hx, by simp only [coercion_failure, hf, raised]⟩
  rcases bind_eq_error _ _ _ h with hs | ⟨_, h⟩
  · obtain ⟨x, hx, hf⟩ := stanza_error _ _ _ _ hs
    exact ⟨"refresh", field_type.unsigned_int, x, by decide, hx, by simp only [coercion_failure, hf, raised]⟩
  rcases bind_eq_error _ _ _ h with hs | ⟨_, h⟩
  · obtain ⟨x, hx, hf⟩ := stanza_error _ _ _ _ hs
    have hf2 := bind_ok_eq_error _ _ _ hf
    exact ⟨"seed", field_type.unsigned_int, x, by decide, hx, by simp only [coercion_failure, hf2, raised]⟩
  rcases bind_eq_error _ _ _ h with hs | ⟨_, h⟩
  · obtain ⟨x, hx, hf⟩ := stanza_error _ _ _ _ hs
    have hf2 := bind_ok_eq_error _ _ _ hf
    exact ⟨"chain_id", field_type.unsigned_int, x, by decide, hx, by simp only [coercion_failure, hf2, raised]⟩
  rcases bind_eq_error _ _ _ h with hs | ⟨_, h⟩
  · obtain ⟨x, hx, hf⟩ := stanza_error _ _ _ _ hs
    exact ⟨"init", field_type.string, x, by decide, hx, by simp only [coercion_failure, hf, raised]⟩
  rcases bind_eq_error _ _ _ h with hs | ⟨_, h⟩
  · cases hs
  rcases bind_eq_error _ _ _ h with hs | ⟨_, h⟩
  · obtain ⟨x, hx, hf⟩ := stanza_error _ _ _ _ hs
    exact ⟨"append_samples", field_type.bool, x, by decide, hx, by simp only [coercion_failure, hf, raised]⟩
  rcases bind_eq_error _ _ _ h with hs | ⟨_, h⟩
  · obtain ⟨x, hx, hf⟩ := stanza_error _ _ _ _ hs
    exact ⟨"num_chains", field_type.size_t, x, by decide, hx, by simp only [coercion_failure, hf, raised]⟩
  cases h

/-- C12: the constructor fails exactly when some searched name is present, at
its first occurrence, with a value that the coercion of its stanza does not
accept; a list in which no searched name is present is resolved; and a failure
leaves no record. -/
theorem ctor_fails_iff (R : Rcpp SEXP E) (time0 : Int) (test_grad0 : Bool) (in_ : List (String × SEXP)) :
    ((∃ e, nuts_args.ctor R time0 test_grad0 in_ = Except.error e) ↔
      ∃ key ty x, (key, ty) ∈ key_types ∧ in_.lookup key = some x ∧
        coercible R ty x = false) ∧
    ((∀ key, key ∈ key_names → key ∉ in_.map Prod.fst) →
      ∃ r, nuts_args.ctor R time0 test_grad0 in_ = Except.ok r) ∧
    (∀ e, nuts_args.ctor R time0 test_grad0 in_ = Except.error e →
      ∀ r, nuts_args.ctor R time0 test_grad0 in_ ≠ Except.ok r) := by
  refine ⟨⟨?_, ?_⟩, ?_, ?_⟩
  · rintro ⟨e, he⟩
    by_contra hno
    have hall : ∀ key ty x, (key, ty) ∈ key_types → in_.lookup key = some x →
        coercible R ty x = true := by
      intro key ty x hmem hx
      by_contra hc
      exact hno ⟨key, ty, x, hmem, hx, by simpa using hc⟩
    obtain ⟨r, hr⟩ := ctor_ok_of_coercible R time0 test_grad0 in_ hall
    rw [he] at hr
    cases hr
  · rintro ⟨key, ty, x, hmem, hx, hc⟩
    cases hres : nuts_args.ctor R time0 test_grad0 in_ with
    | error e => exact ⟨e, rfl⟩
    | ok r =>
      have := coercible_of_ctor_ok R time0 test_grad0 in_ r hres key ty x hmem hx
      rw [hc] at this
      cases this
  · intro habsent
    apply ctor_ok_of_coercible
    intro key ty x hmem hx
    have hkey : key ∈ key_names := by
      have := List.mem_map_of_mem Prod.fst hmem
      exact this
    rw [lookup_eq_none_of_not_mem in_ key (habsent key hkey)] at hx
    cases hx
  · intro e he r hr
    rw [he] at hr
    cases hr

/-- Instances of the failure rule: the list holding `iter = "abc"` fails, the
empty list is resolved. -/
theorem ctor_fails_iff_witness :
    (∃ e, nuts_args.ctor RObject.rcpp 0 false [("iter", RObject.character "abc")]
      = Except.error e) ∧
    (∃ r, nuts_args.ctor RObject.rcpp 0 false [] = Except.ok r) :=
  ⟨(ctor_fails_iff RObject.rcpp 0 false [("iter", RObject.character "abc")]).1.2
      ⟨"iter", field_type.unsigned_int, RObject.character "abc", by decide, rfl, rfl⟩,
    (ctor_fails_iff RObject.rcpp 0 false []).2.1 (by simp)⟩

/-- C13 fails as stated: a character value under key "iter" and the same
value under key "warmup" make the constructor fail with one and the same
error, which therefore identifies neither key. -/
theorem failure_names_no_key_counterexample :
    nuts_args.ctor RObject.rcpp 0 false [("iter", RObject.character "abc")]
      = Except.error "not compatible with requested type" ∧
    nuts_args.ctor RObject.rcpp 0 false [("warmup", RObject.character "abc")]
      = Except.error "not compatible with requested type" ∧
    nuts_args.ctor RObject.rcpp 0 false [("iter", RObject.character "abc")]
      = nuts_args.ctor RObject.rcpp 0 false [("warmup", RObject.character "abc")] :=
  ⟨rfl, rfl, rfl⟩

/-- C13 (amended): when key "iter" is present with a value that the coercion
to `unsigned int` rejects, the constructor fails, with the exception of that
coercion when "sample_file" is absent or coercible; every failure of the
constructor is the exception raised by the coercion of a present value, passed
on unchanged; and that exception is the same under key "iter" and under key
"warmup". -/
theorem iter_uncoercible_fails (R : Rcpp SEXP E) (time0 : Int) (test_grad0 : Bool) (in_ : List (String × SEXP)) :
    (∀ x e, in_.lookup "iter" = some x → R.as_unsigned_int x = Except.error e →
      (∃ e1, nuts_args.ctor R time0 test_grad0 in_ = Except.error e1) ∧
      ((∀ y, in_.lookup "sample_file" = some y → coercible R field_type.string y = true) →
        nuts_args.ctor R time0 test_grad0 in_ = Except.error e)) ∧
    (∀ e, nuts_args.ctor R time0 test_grad0 in_ = Except.error e →
      ∃ key ty x, (key, ty) ∈ key_types ∧ in_.lookup key = some x ∧
        coercion_failure R ty x = some e) ∧
    (∀ x e, R.as_unsigned_int x = Except.error e →
      nuts_args.ctor R time0 test_grad0 [("iter", x)] = Except.error e ∧
      nuts_args.ctor R time0 test_grad0 [("warmup", x)] = Except.error e) := by
  have hp : ∀ {α : Type} (a : α), (pure a : Except E α) = Except.ok a := fun _ => rfl
  have hb : ∀ {α β : Type} (a : α) (f : α → Except E β), (Except.ok a >>= f) = f a :=
    fun _ _ => rfl
  have herr : ∀ {α β : Type} (e : E) (f : α → Except E β),
      ((Except.error e : Except E α) >>= f) = Except.error e := fun _ _ => rfl
  refine ⟨?_, ctor_error_origin R time0 test_grad0 in_, ?_⟩
  · intro x e hx he
    constructor
    · cases hres : nuts_args.ctor R time0 test_grad0 in_ with
      | error e1 => exact ⟨e1, rfl⟩
      | ok r =>
        have := coercible_of_ctor_ok R time0 test_grad0 in_ r hres "iter" field_type.unsigned_int x
          (by decide) hx
        simp only [coercible, he, Except.toBool] at this
        cases this
    · intro hfile
      obtain ⟨s, hs⟩ := stanza_ok (in_.lookup "sample_file") "samples.csv" R.as_string
        (fun y hy => (toBool_eq_true_iff _).1 (hfile y hy))
      unfold nuts_args.ctor
      simp only [stanza_init_list_eq, stanza_eq, bind_assoc]
      simp only [hp]
      simp only [hs, hb, hx]
      simp only [Option.elim, he, herr]
  · intro x e he
    constructor
    · unfold nuts_args.ctor
      simp only [stanza_init_list_eq, stanza_eq, bind_assoc]
      have h1 : List.lookup "sample_file" [("iter", x)] = none := by simp [List.lookup]
      have h2 : List.lookup "iter" [("iter", x)] = some x := by simp [List.lookup]
      simp only [hp]
      simp only [h1, h2]
      simp only [Option.elim, hb, he, herr]
    · unfold nuts_args.ctor
      simp only [stanza_init_list_eq, stanza_eq, bind_assoc]
      have h1 : List.lookup "sample_file" [("warmup", x)] = none := by simp [List.lookup]
      have h2 : List.lookup "iter" [("warmup", x)] = none := by simp [List.lookup]
      have h3 : List.lookup "warmup" [("warmup", x)] = some x := by simp [List.lookup]
      simp only [hp]
      simp only [h1, h2, h3]
      simp only [Option.elim, hb, he, herr]

/-- Instance of the failure of an uncoercible "iter": the list holding
`iter = "abc"` fails with the exception of the coercion to `unsigned int`. -/
theorem iter_uncoercible_fails_witness :
    List.lookup "iter" [("iter", RObject.character "abc")] = some (RObject.character "abc") ∧
    RObject.rcpp.as_unsigned_int (RObject.character "abc")
      = Except.error "not compatible with requested type" ∧
    nuts_args.ctor RObject.rcpp 0 false [("iter", RObject.character "abc")]
      = Except.error "not compatible with requested type" :=
  ⟨rfl, rfl,
    ((iter_uncoercible_fails RObject.rcpp 0 false [("iter", RObject.character "abc")]).1
      (RObject.character "abc") "not compatible with requested type" rfl rfl).2
      (by intro y hy; simp [List.lookup] at hy)⟩

end claims

end rstan
